import Mathlib

/-!
Express-jobapps: the partial-update helper, the Job model and the jobs router

A shallow embedding of `helpers/sql.js`, `models/job.js` and the `GET /jobs`
handler of `routes/jobs.js`, followed by theorems about them.

Conventions of the embedding

* A JavaScript object is the list of its own properties in enumeration order,
  the order in which `Object.keys` and `Object.values` both walk it.
* `db.query` is a function of the store and the statement; every model method
  returns its outcome together with the store it leaves and the statements it
  issued, in order.
* A thrown error is `Except.error`; `async` functions are run to completion.
-/

namespace JobApps

/-! JavaScript values and objects -/

/-- JavaScript primitive values that travel through the helpers. -/
inductive JsValue where
  | undefined
  | null
  | bool (b : Bool)
  | num (n : Int)
  | str (s : String)
  deriving DecidableEq, Repr

/-- An object: its own properties, in enumeration order. -/
abbrev Obj (α : Type) := List (String × α)

/-- `Object.keys(o)`. -/
def Object.keys {α : Type} (o : Obj α) : List String := o.map Prod.fst

/-- `Object.values(o)`. -/
def Object.values {α : Type} (o : Obj α) : List α := o.map Prod.snd

/-- `k in o`, for own properties. -/
def Object.has {α : Type} (k : String) (o : Obj α) : Bool := o.any (fun p => p.1 == k)

/-- `o[k]` among the own properties of `o`, `none` standing for a property that
is not there. -/
def Object.get? {α : Type} (o : Obj α) (k : String) : Option α :=
  (o.find? (fun p => p.1 == k)).map Prod.snd

/-- `delete o[k]`. -/
def Object.delete {α : Type} (k : String) (o : Obj α) : Obj α := o.filter (fun p => p.1 != k)

/-- The value of a key that is an array index: a decimal numeral without a
leading zero (or `0` itself) for a number up to 4294967294. -/
def arrayIndex? (k : String) : Option Nat :=
  match k.data with
  | [] => none
  | c :: cs =>
    if (c :: cs).all Char.isDigit ∧ (c ≠ '0' ∨ cs = []) then
      let n := (c :: cs).foldl (fun n d => 10 * n + (d.toNat - 48)) 0
      if n < 4294967295 then some n else none
    else none

/-- `o[k] = v` on properties kept in the order they were created: an existing
property gets the value where it stands, a new one goes to the end. -/
def Object.set {α : Type} (o : Obj α) (k : String) (v : α) : Obj α :=
  if Object.has k o then o.map (fun p => if p.1 == k then (k, v) else p) else o ++ [(k, v)]

/-- The object that results from setting the given properties one after the
other, as an object literal or `JSON.parse` does: its own properties in
enumeration order, which is the array-index keys in ascending order followed by
the other keys in the order they were created. -/
def Object.literal {α : Type} (entries : List (String × α)) : Obj α :=
  let created := entries.foldl (fun o p => Object.set o p.1 p.2) []
  (created.filter (fun p => (arrayIndex? p.1).isSome)).insertionSort
      (fun p q => (arrayIndex? p.1).getD 0 ≤ (arrayIndex? q.1).getD 0)
    ++ created.filter (fun p => (arrayIndex? p.1).isNone)

/-- The template-literal rendering of a value. A number is an integer in this
embedding and is written in decimal digits, as the language writes an integer
of magnitude below 10^21. -/
def JsValue.toJsString : JsValue → String
  | .undefined => "undefined"
  | .null => "null"
  | .bool true => "true"
  | .bool false => "false"
  | .num n => toString n
  | .str s => s

/-! Errors (`expressError.js`) -/

/-- The error classes of the application, and errors raised by the store itself. -/
inductive ErrorKind where
  | BadRequestError
  | NotFoundError
  | UnauthorizedError
  | StoreError
  deriving DecidableEq, Repr

/-- A thrown error: its class and its message. -/
structure JsError where
  kind : ErrorKind
  message : String
  deriving DecidableEq, Repr

/-- `new BadRequestError(message)`. -/
def BadRequestError (message : String) : JsError := ⟨.BadRequestError, message⟩

/-- `new NotFoundError(message)`. -/
def NotFoundError (message : String) : JsError := ⟨.NotFoundError, message⟩

deriving instance DecidableEq for Except

/-! `helpers/sql.js` -/

/-- The object returned by `sqlForPartialUpdate`. -/
structure PartialUpdate where
  setCols : String
  values : List JsValue
  deriving DecidableEq, Repr

/-- The names of the properties of `Object.prototype` whose value is a function. -/
def objectPrototypeFunctions : List String :=
  ["constructor", "__defineGetter__", "__defineSetter__", "hasOwnProperty",
   "__lookupGetter__", "__lookupSetter__", "isPrototypeOf", "propertyIsEnumerable",
   "toString", "valueOf", "toLocaleString"]

/-- The text a template literal gives for the property `name` that a plain
object inherits from `Object.prototype`; `none` when `Object.prototype` has no
such property. The inherited values are functions, written as their source
text (`constructor` is the function `Object`), and, under `__proto__`,
`Object.prototype` itself, written `[object Object]`. -/
def objectPrototypeText (name : String) : Option String :=
  if name = "constructor" then some "function Object() \x7b [native code] \x7d"
  else if name = "__proto__" then some "[object Object]"
  else if objectPrototypeFunctions.contains name then
    some ("function " ++ name ++ "() \x7b [native code] \x7d")
  else none

/-- The column `jsToSql[colName] || colName` as the template literal writes it,
for a plain object `jsToSql`. The property read finds the table's own entry
when there is one, and otherwise what the table inherits from
`Object.prototype`; `||` keeps what was found when it is truthy (a non-empty
string, or any inherited value) and falls back to the key otherwise. -/
def sqlColumn (jsToSql : Obj String) (colName : String) : String :=
  match Object.get? jsToSql colName with
  | some c => if c ≠ "" then c else colName
  | none =>
    match objectPrototypeText colName with
    | some text => text
    | none => colName

/-- The array `cols` of `sqlForPartialUpdate`:
`keys.map((colName, idx) => "\"" + (jsToSql[colName] || colName) + "\"=$" + (idx + 1))`. -/
def sqlCols (keys : List String) (jsToSql : Obj String) : List String :=
  keys.mapIdx (fun idx colName => "\"" ++ sqlColumn jsToSql colName ++ "\"=$" ++ toString (idx + 1))

/-- `sqlForPartialUpdate(dataToUpdate, jsToSql)`. -/
def sqlForPartialUpdate (dataToUpdate : Obj JsValue) (jsToSql : Obj String) :
    Except JsError PartialUpdate :=
  let keys := Object.keys dataToUpdate
  if keys.length = 0 then .error (BadRequestError "No data")
  else
    let cols := sqlCols keys jsToSql
    .ok { setCols := ", ".intercalate cols, values := Object.values dataToUpdate }

/-! The store interface (`db.js`) -/

/-- The `WHERE` clause of a job `SELECT`; a number is the position of the
placeholder `$n` that stands there. -/
inductive Cond where
  /-- `j.id=$n` -/
  | idEq (n : Nat)
  /-- `j.title ILIKE $n` -/
  | titleILike (n : Nat)
  /-- `j.salary >= $n` -/
  | salaryGe (n : Nat)
  /-- `j.equity > 0` -/
  | equityPos
  /-- `a AND b` -/
  | and (a b : Cond)
  deriving DecidableEq, Repr

/-- The statements `models/job.js` sends to the store. -/
inductive Statement where
  /-- `SELECT title FROM jobs WHERE title=$1 AND company_handle=$2` -/
  | selectDuplicate
  /-- `SELECT handle FROM companies` -/
  | selectHandles
  /-- `INSERT INTO jobs (title, salary, equity, company_handle) VALUES ($1 , $2 , $3 , $4)
  RETURNING id, title, salary, equity, company_handle AS "companyHandle"` -/
  | insertJob
  /-- `SELECT j.id, j.title, j.salary, j.equity, c.name AS "companyName" FROM jobs AS j
  JOIN companies AS c ON j.company_handle=c.handle`, followed by `WHERE cond` when there is one -/
  | selectJobs (cond : Option Cond)
  /-- `UPDATE jobs SET ${setCols} WHERE id = ${idVariableIndex}
  RETURNING id, title, salary, equity, company_handle AS "companyHandle"` -/
  | updateJobs (setCols idVariableIndex : String)
  /-- `DELETE FROM jobs WHERE id = $1 RETURNING id` -/
  | deleteJob
  deriving DecidableEq, Repr

/-- The two arguments of one `db.query(text, values)` call. -/
structure Query where
  text : Statement
  values : List JsValue
  deriving DecidableEq, Repr

/-- A result row: column name to value. -/
abbrev Row := Obj JsValue

/-- The store behind `db.query`: from the current store and a query, the rows
(or the error the store raises) and the store afterwards. -/
abbrev Db (σ : Type) := σ → Query → Except JsError (List Row) × σ

/-- What a call of a model method amounts to: its outcome, the store it leaves,
and the queries it issued, first to last. -/
structure Run (σ α : Type) where
  outcome : Except JsError α
  store : σ
  issued : List Query

/-- Truthiness of a value. -/
def JsValue.truthy : JsValue → Bool
  | .undefined => false
  | .null => false
  | .bool b => b
  | .num n => n != 0
  | .str s => s != ""

/-- `o.k` read as a value: `undefined` when the property is not there. -/
def Object.prop (o : Row) (k : String) : JsValue := (Object.get? o k).getD .undefined

/-! `models/job.js` -/

/-- `Job.create({ title, salary, equity, companyHandle })`; the result is
`result.rows[0]`, `none` standing for `undefined`. -/
def Job.create {σ : Type} (db : Db σ) (s : σ) (job : Row) : Run σ (Option Row) :=
  let title := Object.prop job "title"
  let salary := Object.prop job "salary"
  let equity := Object.prop job "equity"
  let companyHandle := Object.prop job "companyHandle"
  let q1 : Query := ⟨.selectDuplicate, [title, companyHandle]⟩
  match db s q1 with
  | (.error e, s1) => ⟨.error e, s1, [q1]⟩
  | (.ok duplicateCheck, s1) =>
    match duplicateCheck[0]? with
    | some _ => ⟨.error (BadRequestError ("Duplicate job: " ++ title.toJsString)), s1, [q1]⟩
    | none =>
      let q2 : Query := ⟨.selectHandles, []⟩
      match db s1 q2 with
      | (.error e, s2) => ⟨.error e, s2, [q1, q2]⟩
      | (.ok handleCheck, s2) =>
        let handles := handleCheck.map (fun r => Object.prop r "handle")
        if !handles.contains companyHandle then
          ⟨.error (BadRequestError ("Invalid companyHandle: " ++ companyHandle.toJsString)),
            s2, [q1, q2]⟩
        else
          let q3 : Query := ⟨.insertJob, [title, salary, equity, companyHandle]⟩
          match db s2 q3 with
          | (.error e, s3) => ⟨.error e, s3, [q1, q2, q3]⟩
          | (.ok result, s3) => ⟨.ok result[0]?, s3, [q1, q2, q3]⟩

/-- `Job.findAll()`. -/
def Job.findAll {σ : Type} (db : Db σ) (s : σ) : Run σ (List Row) :=
  let q : Query := ⟨.selectJobs none, []⟩
  match db s q with
  | (.error e, s1) => ⟨.error e, s1, [q]⟩
  | (.ok jobs, s1) => ⟨.ok jobs, s1, [q]⟩

/-- `Job.get(id)`. -/
def Job.get {σ : Type} (db : Db σ) (s : σ) (id : JsValue) : Run σ Row :=
  let q : Query := ⟨.selectJobs (some (.idEq 1)), [id]⟩
  match db s q with
  | (.error e, s1) => ⟨.error e, s1, [q]⟩
  | (.ok jobs, s1) =>
    match jobs[0]? with
    | none => ⟨.error (NotFoundError ("No job found with id " ++ id.toJsString)), s1, [q]⟩
    | some job => ⟨.ok job, s1, [q]⟩

/-- `Job.searchByTitle(title)`. -/
def Job.searchByTitle {σ : Type} (db : Db σ) (s : σ) (title : JsValue) : Run σ (List Row) :=
  let title := "%" ++ title.toJsString ++ "%"
  let q : Query := ⟨.selectJobs (some (.titleILike 1)), [.str title]⟩
  match db s q with
  | (.error e, s1) => ⟨.error e, s1, [q]⟩
  | (.ok jobs, s1) =>
    if jobs.length = 0 then
      ⟨.error (NotFoundError ("No jobs found with title: " ++ title)), s1, [q]⟩
    else ⟨.ok jobs, s1, [q]⟩

/-- `Job.searchByMinSalary(minSalary)`. -/
def Job.searchByMinSalary {σ : Type} (db : Db σ) (s : σ) (minSalary : JsValue) :
    Run σ (List Row) :=
  let q : Query := ⟨.selectJobs (some (.salaryGe 1)), [minSalary]⟩
  match db s q with
  | (.error e, s1) => ⟨.error e, s1, [q]⟩
  | (.ok jobs, s1) =>
    if jobs.length = 0 then
      ⟨.error (NotFoundError
        ("No jobs found with salary " ++ minSalary.toJsString ++ " or more")), s1, [q]⟩
    else ⟨.ok jobs, s1, [q]⟩

/-- `Job.searchByEquity()`. -/
def Job.searchByEquity {σ : Type} (db : Db σ) (s : σ) : Run σ (List Row) :=
  let q : Query := ⟨.selectJobs (some .equityPos), []⟩
  match db s q with
  | (.error e, s1) => ⟨.error e, s1, [q]⟩
  | (.ok jobs, s1) =>
    if jobs.length = 0 then
      ⟨.error (NotFoundError "No jobs found with equity > 0"), s1, [q]⟩
    else ⟨.ok jobs, s1, [q]⟩

/-- `Job.searchByEquityAndSalary(minSalary)`. -/
def Job.searchByEquityAndSalary {σ : Type} (db : Db σ) (s : σ) (minSalary : JsValue) :
    Run σ (List Row) :=
  let q : Query := ⟨.selectJobs (some (.and .equityPos (.salaryGe 1))), [minSalary]⟩
  match db s q with
  | (.error e, s1) => ⟨.error e, s1, [q]⟩
  | (.ok jobs, s1) =>
    if jobs.length = 0 then
      ⟨.error (NotFoundError
        ("No jobs found with equity > 0 and salary >= " ++ minSalary.toJsString)), s1, [q]⟩
    else ⟨.ok jobs, s1, [q]⟩

/-- `Job.searchByTitleAndSalary(title, minSalary)`. -/
def Job.searchByTitleAndSalary {σ : Type} (db : Db σ) (s : σ) (title minSalary : JsValue) :
    Run σ (List Row) :=
  let title := "%" ++ title.toJsString ++ "%"
  let q : Query := ⟨.selectJobs (some (.and (.titleILike 1) (.salaryGe 2))),
    [.str title, minSalary]⟩
  match db s q with
  | (.error e, s1) => ⟨.error e, s1, [q]⟩
  | (.ok jobs, s1) =>
    if jobs.length = 0 then
      ⟨.error (NotFoundError ("No jobs found with title '" ++ title ++ "' and salary "
        ++ minSalary.toJsString ++ " or more")), s1, [q]⟩
    else ⟨.ok jobs, s1, [q]⟩

/-- `Job.searchByTitleAndEquity(title)`. -/
def Job.searchByTitleAndEquity {σ : Type} (db : Db σ) (s : σ) (title : JsValue) :
    Run σ (List Row) :=
  let title := "%" ++ title.toJsString ++ "%"
  let q : Query := ⟨.selectJobs (some (.and (.titleILike 1) .equityPos)), [.str title]⟩
  match db s q with
  | (.error e, s1) => ⟨.error e, s1, [q]⟩
  | (.ok jobs, s1) =>
    if jobs.length = 0 then
      ⟨.error (NotFoundError
        ("No jobs found with title '" ++ title ++ "' and equity > 0")), s1, [q]⟩
    else ⟨.ok jobs, s1, [q]⟩

/-- `Job.searchByTitleEquityAndSalary(title, minSalary)`. -/
def Job.searchByTitleEquityAndSalary {σ : Type} (db : Db σ) (s : σ) (title minSalary : JsValue) :
    Run σ (List Row) :=
  let title := "%" ++ title.toJsString ++ "%"
  let q : Query := ⟨.selectJobs (some (.and (.titleILike 1) (.and .equityPos (.salaryGe 2)))),
    [.str title, minSalary]⟩
  match db s q with
  | (.error e, s1) => ⟨.error e, s1, [q]⟩
  | (.ok jobs, s1) =>
    if jobs.length = 0 then
      ⟨.error (NotFoundError ("No jobs found with title " ++ title ++ " and salary > "
        ++ minSalary.toJsString ++ " and equity > 0")), s1, [q]⟩
    else ⟨.ok jobs, s1, [q]⟩

/-- The object `Job.update` hands to `sqlForPartialUpdate`: `data` after
`if ("id" in data) delete data["id"]` and `if ("companyHandle") delete data["companyHandle"]`,
the second test being the truthiness of the string literal. -/
def Job.updateData (data : Row) : Row :=
  let data := if Object.has "id" data then Object.delete "id" data else data
  if (JsValue.str "companyHandle").truthy then Object.delete "companyHandle" data else data

/-- `Job.update(id, data)`. -/
def Job.update {σ : Type} (db : Db σ) (s : σ) (id : JsValue) (data : Row) : Run σ Row :=
  match sqlForPartialUpdate (Job.updateData data) [] with
  | .error e => ⟨.error e, s, []⟩
  | .ok r =>
    let idVariableIndex := "$" ++ toString (r.values.length + 1)
    let q : Query := ⟨.updateJobs r.setCols idVariableIndex, r.values ++ [id]⟩
    match db s q with
    | (.error e, s1) => ⟨.error e, s1, [q]⟩
    | (.ok result, s1) =>
      match result[0]? with
      | none => ⟨.error (NotFoundError ("No job with id " ++ id.toJsString)), s1, [q]⟩
      | some job => ⟨.ok job, s1, [q]⟩

/-- `Job.remove(id)`. -/
def Job.remove {σ : Type} (db : Db σ) (s : σ) (id : JsValue) : Run σ Unit :=
  let q : Query := ⟨.deleteJob, [id]⟩
  match db s q with
  | (.error e, s1) => ⟨.error e, s1, [q]⟩
  | (.ok result, s1) =>
    match result[0]? with
    | none => ⟨.error (NotFoundError ("No job found with id " ++ id.toJsString)), s1, [q]⟩
    | some _ => ⟨.ok (), s1, [q]⟩

/-! `routes/jobs.js`: `GET /jobs` -/

/-- The parsed query string, `req.query`: parameter name to its text. -/
abbrev QueryParams := Obj String

/-- `query.k` read as a value: the text when the parameter is there, else `undefined`. -/
def QueryParams.prop (query : QueryParams) (k : String) : JsValue :=
  match Object.get? query k with
  | some v => .str v
  | none => .undefined

/-- `"hasEquity" in query && query.hasEquity == "true"`. -/
def hasEquityTrue (query : QueryParams) : Bool :=
  Object.has "hasEquity" query && (Object.get? query "hasEquity" == some "true")

/-- How a handler ends: `res.json({ key: rows })`, or `next(err)`. -/
inductive Reply where
  | json (key : String) (rows : List Row)
  | next (err : JsError)
  deriving DecidableEq, Repr

/-- A handled request: the reply, the store afterwards and the queries issued. -/
structure Handled (σ : Type) where
  reply : Reply
  store : σ
  issued : List Query

/-- The tail of the handler: `return res.json({ jobs })`, and `catch (err) { return next(err) }`. -/
def replyJobs {σ : Type} (r : Run σ (List Row)) : Handled σ :=
  match r.outcome with
  | .ok jobs => ⟨.json "jobs" jobs, r.store, r.issued⟩
  | .error err => ⟨.next err, r.store, r.issued⟩

/-- The handler of `router.get("/")`. -/
def getJobs {σ : Type} (db : Db σ) (s : σ) (query : QueryParams) : Handled σ :=
  replyJobs (
    if Object.has "title" query then
      if Object.has "minSalary" query then
        if hasEquityTrue query then
          Job.searchByTitleEquityAndSalary db s (query.prop "title") (query.prop "minSalary")
        else
          Job.searchByTitleAndSalary db s (query.prop "title") (query.prop "minSalary")
      else if hasEquityTrue query then
        Job.searchByTitleAndEquity db s (query.prop "title")
      else
        Job.searchByTitle db s (query.prop "title")
    else if Object.has "minSalary" query then
      if hasEquityTrue query then
        Job.searchByEquityAndSalary db s (query.prop "minSalary")
      else
        Job.searchByMinSalary db s (query.prop "minSalary")
    else if hasEquityTrue query then
      Job.searchByEquity db s
    else
      Job.findAll db s)

/-! The relational store

The database is not part of the repository. Where a statement is about which
rows a search returns, the tables behind `db.query` and the way the store reads
the job `SELECT`s are modelled here after PostgreSQL: the join, `ILIKE` with its
wildcards and escape, comparisons that are not true of `NULL`, and the binding
of parameters to the type of their column. Letter case is folded for the ASCII
letters; the ranges of the column types are not modelled. -/

/-- A `NUMERIC` value, `unscaled / 10 ^ scale`; the scale is the number of digits
after the point the value was entered with and is printed with. -/
structure Numeric where
  unscaled : Int
  scale : Nat
  deriving DecidableEq, Repr

/-- The decimal text in which the driver hands a `NUMERIC` over (`"0.1"`, `"0"`). -/
def Numeric.text (x : Numeric) : String :=
  let ds := Nat.toDigits 10 x.unscaled.natAbs
  let ds := List.replicate (x.scale + 1 - ds.length) '0' ++ ds
  (if x.unscaled < 0 then "-" else "") ++ String.mk (ds.take (ds.length - x.scale))
    ++ (if x.scale = 0 then "" else "." ++ String.mk (ds.drop (ds.length - x.scale)))

/-- A row of table `jobs`. -/
structure JobRecord where
  id : Int
  title : String
  salary : Option Int
  equity : Option Numeric
  companyHandle : String
  deriving DecidableEq, Repr

/-- A row of table `companies`, with the columns the job statements read. -/
structure CompanyRecord where
  handle : String
  name : String
  deriving DecidableEq, Repr

/-- The content of the store. -/
structure Store where
  jobs : List JobRecord
  companies : List CompanyRecord
  deriving DecidableEq, Repr

/-- `jobs AS j JOIN companies AS c ON j.company_handle=c.handle`. -/
def jobsJoinCompanies (st : Store) : List (JobRecord × CompanyRecord) :=
  st.jobs.flatMap (fun j =>
    (st.companies.filter (fun c => j.companyHandle == c.handle)).map (fun c => (j, c)))

/-- `SELECT j.id, j.title, j.salary, j.equity, c.name AS "companyName"` of one joined row. -/
def jobView (jc : JobRecord × CompanyRecord) : Row :=
  [("id", .num jc.1.id),
   ("title", .str jc.1.title),
   ("salary", match jc.1.salary with | some n => .num n | none => .null),
   ("equity", match jc.1.equity with | some x => .str x.text | none => .null),
   ("companyName", .str jc.2.name)]

/-- What a `LIKE` pattern is made of. -/
inductive LikeToken where
  /-- `%`: any run of characters, the empty one included -/
  | anyRun
  /-- `_`: any one character -/
  | anyOne
  /-- a character that stands for itself -/
  | lit (c : Char)
  deriving DecidableEq, Repr

/-- Reading a `LIKE` pattern: `%` and `_` are wildcards, a backslash makes the
character after it literal, every other character is literal. The flag tells
that the character before was such a backslash. (A lone backslash at the very
end, which the store refuses, is dropped; the searches send no such pattern,
theirs end in `%`.) -/
def likeTokens : Bool → List Char → List LikeToken
  | _, [] => []
  | true, c :: p => .lit c :: likeTokens false p
  | false, c :: p =>
    if c = '\\' then likeTokens true p
    else if c = '%' then .anyRun :: likeTokens false p
    else if c = '_' then .anyOne :: likeTokens false p
    else .lit c :: likeTokens false p

/-- Matching a text against a pattern, letter case folded, the whole text
against the whole pattern. -/
def matchTokens : List LikeToken → List Char → Bool
  | [], t => t.isEmpty
  | .anyRun :: p, t => t.tails.any (fun t1 => matchTokens p t1)
  | .anyOne :: _, [] => false
  | .anyOne :: p, _ :: t => matchTokens p t
  | .lit _ :: _, [] => false
  | .lit c :: p, x :: t => c.toLower == x.toLower && matchTokens p t

/-- `LIKE` with letter case folded. -/
def likeMatch (pattern text : List Char) : Bool :=
  matchTokens (likeTokens false pattern) text

/-- `text ILIKE pattern`. -/
def ilike (text pattern : String) : Bool := likeMatch pattern.data text.data

/-- A parameter bound where text is expected: `none` is SQL `NULL`. -/
def pgText : JsValue → Option String
  | .undefined => none
  | .null => none
  | v => some v.toJsString

/-- The number a run of decimal digits writes; `none` when the run is empty or
holds something else. -/
def pgDigits (cs : List Char) : Option Nat :=
  if cs ≠ [] ∧ cs.all Char.isDigit then
    some (cs.foldl (fun n c => 10 * n + (c.toNat - 48)) 0)
  else none

/-- Integer input: blanks around it are dropped, then an optional sign and digits. -/
def pgIntegerText (s : String) : Option Int :=
  match ((s.data.dropWhile (· == ' ')).reverse.dropWhile (· == ' ')).reverse with
  | '-' :: ds => (pgDigits ds).map (fun n => - (n : Int))
  | '+' :: ds => (pgDigits ds).map (fun n => (n : Int))
  | ds => (pgDigits ds).map (fun n => (n : Int))

/-- A parameter bound where an integer is expected: `none` when the store
rejects it, `some none` for SQL `NULL`. -/
def pgInteger : JsValue → Option (Option Int)
  | .undefined => some none
  | .null => some none
  | .bool _ => none
  | .num n => some (some n)
  | .str s => (pgIntegerText s).map some

/-- The value bound to placeholder `$n`. -/
def pgParam (values : List JsValue) (n : Nat) : Option JsValue :=
  if n = 0 then none else values[n - 1]?

/-- Whether the store accepts the parameters of a condition: each placeholder
has a value, of the type its column asks for. -/
def Cond.accepts (values : List JsValue) : Cond → Bool
  | .idEq n => ((pgParam values n).bind pgInteger).isSome
  | .titleILike n => (pgParam values n).isSome
  | .salaryGe n => ((pgParam values n).bind pgInteger).isSome
  | .equityPos => true
  | .and a b => a.accepts values && b.accepts values

/-- Whether a condition is true of a job row (a comparison with `NULL` is not). -/
def Cond.holds (values : List JsValue) (j : JobRecord) : Cond → Bool
  | .idEq n =>
    match ((pgParam values n).bind pgInteger).join with
    | some m => j.id == m
    | none => false
  | .titleILike n =>
    match (pgParam values n).bind pgText with
    | some p => ilike j.title p
    | none => false
  | .salaryGe n =>
    match ((pgParam values n).bind pgInteger).join, j.salary with
    | some m, some v => decide (m ≤ v)
    | _, _ => false
  | .equityPos =>
    match j.equity with
    | some x => decide (0 < x.unscaled)
    | none => false
  | .and a b => a.holds values j && b.holds values j

/-- The store's answer to the job `SELECT` with the given `WHERE` clause. -/
def pgSelectJobs (st : Store) (cond : Option Cond) (values : List JsValue) :
    Except JsError (List Row) :=
  match cond with
  | none => .ok ((jobsJoinCompanies st).map jobView)
  | some c =>
    if c.accepts values then
      .ok (((jobsJoinCompanies st).filter (fun jc => c.holds values jc.1)).map jobView)
    else .error ⟨.StoreError, "invalid input for a statement parameter"⟩

/-- The store as a `Db`: job `SELECT`s are answered from the tables and leave
them as they are; `other` answers the remaining statements. -/
def pgDb (other : Db Store) : Db Store := fun st q =>
  match q.text with
  | .selectJobs cond => (pgSelectJobs st cond q.values, st)
  | _ => other st q

/-- The three jobs and companies of the test fixtures. -/
def fixtureStore : Store :=
  { jobs := [⟨1, "j1", some 1, some ⟨1, 1⟩, "c1"⟩, ⟨2, "j2", some 2, some ⟨2, 1⟩, "c2"⟩,
      ⟨3, "j3", some 3, some ⟨3, 1⟩, "c3"⟩],
    companies := [⟨"c1", "C1"⟩, ⟨"c2", "C2"⟩, ⟨"c3", "C3"⟩] }

/-- A `Db` for the statements `pgDb` leaves open, answering with no rows. -/
def noRows : Db Store := fun st _ => (.ok [], st)

/-! Definitions used to state the theorems -/

/-- The `setCols` the specification describes: fragment `"<col>"=$i` for the
`i`-th key `k`, with `col = jsToSql[k]` when `jsToSql` has an entry for `k` and
`col = k` when it has none. -/
def setColsAsStated (dataToUpdate : Obj JsValue) (jsToSql : Obj String) : String :=
  ", ".intercalate ((Object.keys dataToUpdate).mapIdx (fun idx k =>
    "\"" ++ (match Object.get? jsToSql k with
      | some col => col
      | none => k) ++ "\"=$" ++ toString (idx + 1)))

/-- The shape the seven searches of `Job` share: one query, the store's error
passed on, `NotFoundError` on an empty result, the rows otherwise. -/
def searchRun {σ : Type} (db : Db σ) (s : σ) (q : Query) (message : String) :
    Run σ (List Row) :=
  match db s q with
  | (.error e, s1) => ⟨.error e, s1, [q]⟩
  | (.ok jobs, s1) =>
    if jobs.length = 0 then ⟨.error (NotFoundError message), s1, [q]⟩ else ⟨.ok jobs, s1, [q]⟩

/-- "Zero matches fail with `NotFound`, never an empty success": the run sent
exactly one query, left the store as that query left it, and ended as the
store's answer dictates: the store's own error, `NotFoundError` for no rows, and
otherwise the rows the store returned, of which there is at least one. -/
def NotFoundOnEmpty {σ : Type} (db : Db σ) (s : σ) (r : Run σ (List Row)) : Prop :=
  ∃ q message, r.issued = [q] ∧ r.store = (db s q).2 ∧
    r.outcome = match (db s q).1 with
      | .error e => .error e
      | .ok [] => .error ⟨.NotFoundError, message⟩
      | .ok (row :: rows) => .ok (row :: rows)

/-- The ladder of `GET /jobs` as a table over the three filters. -/
def jobsDispatch {σ : Type} (db : Db σ) (s : σ) (title minSalary : Option String)
    (equity : Bool) : Run σ (List Row) :=
  match title, minSalary, equity with
  | some title, some minSalary, true =>
    Job.searchByTitleEquityAndSalary db s (.str title) (.str minSalary)
  | some title, some minSalary, false =>
    Job.searchByTitleAndSalary db s (.str title) (.str minSalary)
  | some title, none, true => Job.searchByTitleAndEquity db s (.str title)
  | some title, none, false => Job.searchByTitle db s (.str title)
  | none, some minSalary, true => Job.searchByEquityAndSalary db s (.str minSalary)
  | none, some minSalary, false => Job.searchByMinSalary db s (.str minSalary)
  | none, none, true => Job.searchByEquity db s
  | none, none, false => Job.findAll db s

/-- "The title contains `t` as a substring under case-insensitive comparison":
the characters of `t`, letter case folded, stand together somewhere in the
characters of the title, folded the same way. -/
def titleContains (title t : String) : Bool :=
  decide (t.data.map Char.toLower <:+: title.data.map Char.toLower)

/-- "Salary `>= m`": the job has a salary and it is at least `m`. -/
def salaryAtLeast (m : Int) (salary : Option Int) : Bool :=
  match salary with
  | some v => decide (m ≤ v)
  | none => false

/-- Whether a `WHERE` clause tests the equity column. -/
def Cond.testsEquity : Cond → Bool
  | .equityPos => true
  | .and a b => a.testsEquity || b.testsEquity
  | _ => false

/-- "The title matches `t`", the predicate of `searchByTitle`: the title is
`ILIKE` the pattern `"%" + t + "%"`. -/
def titleMatches (title t : String) : Bool := ilike title ("%" ++ t ++ "%")

/-- "Equity `> 0`": the job has an equity and it is above zero. -/
def equityPositive (equity : Option Numeric) : Bool :=
  match equity with
  | some x => decide (0 < x.unscaled)
  | none => false

/-- The joined job rows whose job passes `p`, as the store lists them. -/
def jobRowsWhere (st : Store) (p : JobRecord → Bool) : List Row :=
  ((jobsJoinCompanies st).filter (fun jc => p jc.1)).map jobView

/-- How a search ends on the rows it found: `NotFoundError` with the given
message when there is none, the rows otherwise. -/
def rowsOrNotFound (message : String) : List Row → Except JsError (List Row)
  | [] => .error (NotFoundError message)
  | row :: rows => .ok (row :: rows)

/-- The store's answer to `SELECT title FROM jobs WHERE title=$1 AND company_handle=$2`:
the titles of the jobs whose title and company handle are the two parameters,
bound as text. -/
def pgSelectDuplicate (st : Store) (values : List JsValue) : Except JsError (List Row) :=
  match pgParam values 1, pgParam values 2 with
  | some title, some handle =>
    .ok ((st.jobs.filter (fun j =>
      pgText title == some j.title && pgText handle == some j.companyHandle)).map
        (fun j => [("title", JsValue.str j.title)]))
  | _, _ => .error ⟨.StoreError, "a placeholder has no value"⟩

/-- The store's answer to `SELECT handle FROM companies`. -/
def pgSelectHandles (st : Store) : List Row :=
  st.companies.map (fun c => [("handle", JsValue.str c.handle)])

/-- The store as a `Db` that also answers the two checks of `Job.create` from
the tables; `other` answers the statements that write (`INSERT`, `UPDATE`,
`DELETE`). -/
def pgStore (other : Db Store) : Db Store :=
  pgDb (fun st q =>
    match q.text with
    | .selectDuplicate => (pgSelectDuplicate st q.values, st)
    | .selectHandles => (.ok (pgSelectHandles st), st)
    | _ => other st q)

/-- A `Db` for the statements `pgStore` leaves open: every statement returns the
one row given. -/
def oneRow (row : Row) : Db Store := fun st _ => (.ok [row], st)

/-! `routes/companies.js`: `GET /companies` -/

/-- `ToNumber` of a value that is not a string; `none` is `NaN`. -/
def JsValue.toNumber? : JsValue → Option Int
  | .undefined => none
  | .null => some 0
  | .bool true => some 1
  | .bool false => some 0
  | .num n => some n
  | .str _ => none

/-- The comparisons `>` makes between a string and a number. They go through
`ToNumber` of the string, which reads blanks, a sign, a fraction, an exponent,
hexadecimal and `Infinity`, and gives `NaN` for the rest; the embedding takes
them as a parameter. -/
structure NumericStrings where
  /-- `ToNumber(s) > n` -/
  above : String → Int → Bool
  /-- `n > ToNumber(s)` -/
  below : String → Int → Bool

/-- `a < b` for two texts: the first character in which they differ decides,
and a text is below every longer text that starts with it. (Characters are
compared by code point here, by UTF-16 code unit in the language: the same
order unless a character beyond U+FFFF meets one from U+E000 on.) -/
def textLess : List Char → List Char → Bool
  | [], [] => false
  | [], _ :: _ => true
  | _ :: _, [] => false
  | a :: as, b :: bs =>
    if a.toNat < b.toNat then true
    else if b.toNat < a.toNat then false
    else textLess as bs

/-- `x > y`. Two strings are compared as texts; otherwise both sides are
turned into numbers, and a comparison with `NaN` is false. -/
def jsGreater (ns : NumericStrings) : JsValue → JsValue → Bool
  | .str a, .str b => textLess b.data a.data
  | .str a, y =>
    match y.toNumber? with
    | some n => ns.above a n
    | none => false
  | x, .str b =>
    match x.toNumber? with
    | some n => ns.below b n
    | none => false
  | x, y =>
    match x.toNumber?, y.toNumber? with
    | some a, some b => decide (b < a)
    | _, _ => false

/-- `NumericStrings` for texts that write an integer in decimal digits, the
other texts counting as `NaN`. -/
def decimalStrings : NumericStrings :=
  { above := fun s n =>
      match pgIntegerText s with
      | some v => decide (n < v)
      | none => false,
    below := fun s n =>
      match pgIntegerText s with
      | some v => decide (v < n)
      | none => false }

/-- A call of the handler on `Company`. `models/company.js` is not among the
sources: the handler is embedded over whatever these four methods do. -/
inductive CompanyCall where
  | searchByNameAndSize (name min max : JsValue)
  | searchByName (name : JsValue)
  | searchBySize (min max : JsValue)
  | findAll
  deriving DecidableEq, Repr

/-- The methods of `Company` the handler uses: from the store and a call, the
companies (or the error thrown) and the store afterwards. -/
abbrev CompanyModel (σ : Type) := σ → CompanyCall → Except JsError (List Row) × σ

/-- A handled `GET /companies`: the reply, the store afterwards and the calls
made on `Company`. -/
structure CompaniesHandled (σ : Type) where
  reply : Reply
  store : σ
  calls : List CompanyCall

/-- `companies = await Company.method(...)` followed by
`return res.json({ companies })`, and `catch (err) { return next(err) }`. -/
def replyCompanies {σ : Type} (company : CompanyModel σ) (s : σ) (call : CompanyCall) :
    CompaniesHandled σ :=
  match company s call with
  | (.ok companies, s1) => ⟨.json "companies" companies, s1, [call]⟩
  | (.error err, s1) => ⟨.next err, s1, [call]⟩

/-- `query.k ? query.k : fallback`: the text of the parameter when it is there
and not empty, the number `fallback` otherwise. -/
def queryOr (query : QueryParams) (k : String) (fallback : Int) : JsValue :=
  match Object.get? query k with
  | some v => if v ≠ "" then .str v else .num fallback
  | none => .num fallback

/-- The handler of `router.get("/")` of the companies router. -/
def getCompanies {σ : Type} (ns : NumericStrings) (company : CompanyModel σ) (s : σ)
    (query : QueryParams) : CompaniesHandled σ :=
  if Object.has "name" query then
    if Object.has "min" query || Object.has "max" query then
      let min := queryOr query "min" 0
      let max := queryOr query "max" 7000000
      if jsGreater ns min max then
        ⟨.next (BadRequestError "min must be below max"), s, []⟩
      else
        replyCompanies company s (.searchByNameAndSize (query.prop "name") min max)
    else
      replyCompanies company s (.searchByName (query.prop "name"))
  else if Object.has "min" query || Object.has "max" query then
    let min := queryOr query "min" 0
    let max := queryOr query "max" 7000000
    if jsGreater ns min max then
      ⟨.next (BadRequestError "min must be below max"), s, []⟩
    else
      replyCompanies company s (.searchBySize min max)
  else
    replyCompanies company s .findAll

/-- A `Company` whose every method returns no companies. -/
def noCompanies : CompanyModel Store := fun st _ => (.ok [], st)

/-! `routes/jobs.js`: the router and its middleware -/

/-- The identity a request carries, `res.locals.user`. -/
structure User where
  username : String
  isAdmin : Bool
  deriving DecidableEq, Repr

/-- `res.locals`. -/
structure Locals where
  user : Option User
  deriving DecidableEq, Repr

/-- What the middleware and the handlers read of a request. -/
structure Request where
  /-- `req.headers.authorization` -/
  authorization : Option String
  /-- `req.params` -/
  params : Obj String
  /-- `req.query` -/
  query : QueryParams
  /-- `req.body` -/
  body : Row
  deriving DecidableEq, Repr

/-- A middleware `(req, res, next)`: it ends in `next()`, leaving `res.locals`
as given back, or in `next(err)`. -/
abbrev Middleware := Request → Locals → Except JsError Locals

/-- The three middleware the router imports. `middleware/auth.js` is not among
the sources: the router is embedded over whatever they do. -/
structure Auth where
  authenticateJWT : Middleware
  ensureLoggedIn : Middleware
  ensureAdmin : Middleware

/-- The result of `jsonschema.validate`: `validator.valid`, and the `stack` of
each of `validator.errors`. -/
structure Validation where
  valid : Bool
  errors : List String
  deriving DecidableEq, Repr

/-- `jsonschema.validate(body, schema)` for the two schemas of the router. The
library and `schemas/*.json` are not among the sources: the router is embedded
over whatever validation they make. -/
structure Schemas where
  jobNew : Row → Validation
  jobUpdate : Row → Validation

/-- How a route ends: `res.status(status).json({ key: ... })` with rows, with
one row (`none` for `undefined`) or with a value, or `next(err)`. -/
inductive Answer where
  | rows (status : Nat) (key : String) (rows : List Row)
  | row (status : Nat) (key : String) (row : Option Row)
  | value (status : Nat) (key : String) (value : JsValue)
  | next (err : JsError)
  deriving DecidableEq, Repr

/-- A served request: the answer, the store afterwards and the queries issued. -/
structure Served (σ : Type) where
  answer : Answer
  store : σ
  issued : List Query

/-- The handler of `router.post("/")`; the array of validation errors is the
message of the `BadRequestError`, written here as the language writes an array
as text. -/
def postJobHandler {σ : Type} (schemas : Schemas) (db : Db σ) (s : σ) (req : Request) :
    Served σ :=
  let validator := schemas.jobNew req.body
  if !validator.valid then
    ⟨.next (BadRequestError (",".intercalate validator.errors)), s, []⟩
  else
    let r := Job.create db s req.body
    match r.outcome with
    | .ok job => ⟨.row 201 "job" job, r.store, r.issued⟩
    | .error err => ⟨.next err, r.store, r.issued⟩

/-- The handler of `router.get("/")`, as a route. -/
def getJobsHandler {σ : Type} (db : Db σ) (s : σ) (req : Request) : Served σ :=
  let h := getJobs db s req.query
  match h.reply with
  | .json key rows => ⟨.rows 200 key rows, h.store, h.issued⟩
  | .next err => ⟨.next err, h.store, h.issued⟩

/-- The handler of `router.get("/:id")`. -/
def getJobHandler {σ : Type} (db : Db σ) (s : σ) (req : Request) : Served σ :=
  let r := Job.get db s (QueryParams.prop req.params "id")
  match r.outcome with
  | .ok job => ⟨.row 200 "job" (some job), r.store, r.issued⟩
  | .error err => ⟨.next err, r.store, r.issued⟩

/-- The handler of `router.patch("/:id")`. -/
def patchJobHandler {σ : Type} (schemas : Schemas) (db : Db σ) (s : σ) (req : Request) :
    Served σ :=
  let validator := schemas.jobUpdate req.body
  if !validator.valid then
    ⟨.next (BadRequestError (",".intercalate validator.errors)), s, []⟩
  else
    let r := Job.update db s (QueryParams.prop req.params "id") req.body
    match r.outcome with
    | .ok job => ⟨.row 200 "job" (some job), r.store, r.issued⟩
    | .error err => ⟨.next err, r.store, r.issued⟩

/-- The handler of `router.delete("/:id")`. -/
def deleteJobHandler {σ : Type} (db : Db σ) (s : σ) (req : Request) : Served σ :=
  let r := Job.remove db s (QueryParams.prop req.params "id")
  match r.outcome with
  | .ok _ => ⟨.value 200 "deleted" (QueryParams.prop req.params "id"), r.store, r.issued⟩
  | .error err => ⟨.next err, r.store, r.issued⟩

/-- The names under which the router lists its middleware. -/
inductive MiddlewareName where
  | authenticateJWT
  | ensureLoggedIn
  | ensureAdmin
  deriving DecidableEq, Repr

/-- The five handlers of the router. -/
inductive HandlerName where
  | postJob
  | getJobs
  | getJob
  | patchJob
  | deleteJob
  deriving DecidableEq, Repr

/-- One `router.METHOD(path, ...middleware, handler)`. -/
structure Route where
  method : String
  path : String
  chain : List MiddlewareName
  handler : HandlerName
  deriving DecidableEq, Repr

/-- The routes of `routes/jobs.js`, in the order they are registered. -/
def jobsRoutes : List Route :=
  [⟨"POST", "/", [.authenticateJWT, .ensureLoggedIn, .ensureAdmin], .postJob⟩,
   ⟨"GET", "/", [], .getJobs⟩,
   ⟨"GET", "/:id", [], .getJob⟩,
   ⟨"PATCH", "/:id", [.authenticateJWT, .ensureLoggedIn, .ensureAdmin], .patchJob⟩,
   ⟨"DELETE", "/:id", [.authenticateJWT, .ensureLoggedIn, .ensureAdmin], .deleteJob⟩]

/-- The middleware a name stands for. -/
def Auth.middleware (auth : Auth) : MiddlewareName → Middleware
  | .authenticateJWT => auth.authenticateJWT
  | .ensureLoggedIn => auth.ensureLoggedIn
  | .ensureAdmin => auth.ensureAdmin

/-- The handler a name stands for. -/
def runHandler {σ : Type} (schemas : Schemas) (db : Db σ) :
    HandlerName → σ → Request → Served σ
  | .postJob => postJobHandler schemas db
  | .getJobs => getJobsHandler db
  | .getJob => getJobHandler db
  | .patchJob => patchJobHandler schemas db
  | .deleteJob => deleteJobHandler db

/-- The middleware of a route, run as the framework runs them: in the order
listed, each on the `res.locals` the one before left, stopping at the first
that ends in `next(err)`. -/
def runChain : List Middleware → Request → Locals → Except JsError Locals
  | [], _, locals => .ok locals
  | m :: ms, req, locals =>
    match m req locals with
    | .ok locals1 => runChain ms req locals1
    | .error err => .error err

/-- A request served by a route: the handler runs when every middleware of the
route has ended in `next()`; when one ends in `next(err)` the error goes to the
error handler and the route's handler is not run. `locals` is `res.locals` as
the request reaches the route. -/
def serve {σ : Type} (auth : Auth) (schemas : Schemas) (db : Db σ) (locals : Locals)
    (route : Route) (s : σ) (req : Request) : Served σ :=
  match runChain (route.chain.map auth.middleware) req locals with
  | .error err => ⟨.next err, s, []⟩
  | .ok _ => runHandler schemas db route.handler s req

/-- Modelled from the spec: `middleware/auth.js` is not among the sources. After
its tests and the spec ("authenticates a bearer credential, and gates mutating
routes to logged-in/admin identities"): `authenticateJWT` stores the identity a
valid credential carries and passes every request on; `ensureLoggedIn` passes
a request with an identity and ends the others in `UnauthorizedError`;
`ensureAdmin` passes a request whose identity is an admin and ends the others in
`UnauthorizedError`. `verify` is the verification of the credential in the
`Authorization` header. -/
def specAuth (verify : String → Option User) : Auth :=
  { authenticateJWT := fun req locals =>
      match req.authorization with
      | some header =>
        match verify header with
        | some user => .ok { user := some user }
        | none => .ok locals
      | none => .ok locals,
    ensureLoggedIn := fun _ locals =>
      match locals.user with
      | some _ => .ok locals
      | none => .error ⟨.UnauthorizedError, "Unauthorized"⟩,
    ensureAdmin := fun _ locals =>
      match locals.user with
      | some user =>
        if user.isAdmin then .ok locals else .error ⟨.UnauthorizedError, "Unauthorized"⟩
      | none => .error ⟨.UnauthorizedError, "Unauthorized"⟩ }

/-- A verification that knows two credentials, of an admin and of a plain user. -/
def twoTokens (header : String) : Option User :=
  if header = "Bearer admin" then some ⟨"admin", true⟩
  else if header = "Bearer user" then some ⟨"test", false⟩
  else none

/-- Schemas that accept every body. -/
def anySchemas : Schemas :=
  { jobNew := fun _ => ⟨true, []⟩, jobUpdate := fun _ => ⟨true, []⟩ }

/-- The fixtures with the three jobs the test of `searchByTitleEquityAndSalary`
adds: d10 (salary 100, equity 0.5), d90 (500, 0) and d99 (550, 0.1). -/
def equityFixtureStore : Store :=
  { jobs := fixtureStore.jobs ++
      [⟨4, "d10", some 100, some ⟨5, 1⟩, "c1"⟩, ⟨5, "d90", some 500, some ⟨0, 0⟩, "c1"⟩,
       ⟨6, "d99", some 550, some ⟨1, 1⟩, "c1"⟩],
    companies := fixtureStore.companies }

/-! Objects: lookup, membership, deletion -/

theorem Object.get?_cons {α : Type} (p : String × α) (o : Obj α) (k : String) :
    Object.get? (p :: o) k = if p.1 = k then some p.2 else Object.get? o k := by
  by_cases h : p.1 = k
  · simp [Object.get?, List.find?, h]
  · have hb : (p.1 == k) = false := by simpa using h
    simp [Object.get?, List.find?, hb, h]

theorem Object.has_cons {α : Type} (p : String × α) (o : Obj α) (k : String) :
    Object.has k (p :: o) = (p.1 == k || Object.has k o) := by
  simp only [Object.has, List.any_cons]

theorem Object.delete_cons {α : Type} (p : String × α) (o : Obj α) (k : String) :
    Object.delete k (p :: o) = if p.1 = k then Object.delete k o else p :: Object.delete k o := by
  by_cases h : p.1 = k
  · simp [Object.delete, List.filter_cons, h]
  · simp [Object.delete, List.filter_cons, h]

theorem Object.has_eq_isSome {α : Type} (k : String) (o : Obj α) :
    Object.has k o = (Object.get? o k).isSome := by
  induction o with
  | nil => rfl
  | cons p o ih =>
    rw [Object.has_cons, Object.get?_cons, ih]
    by_cases h : p.1 = k <;> simp [h]

theorem Object.delete_of_not_has {α : Type} (k : String) (o : Obj α)
    (h : Object.has k o = false) : Object.delete k o = o := by
  induction o with
  | nil => rfl
  | cons p o ih =>
    rw [Object.has_cons, Bool.or_eq_false_iff] at h
    have hne : ¬ p.1 = k := by simpa using h.1
    rw [Object.delete_cons, if_neg hne, ih h.2]

theorem Object.get?_delete_of_ne {α : Type} (k k1 : String) (o : Obj α) (h : k1 ≠ k) :
    Object.get? (Object.delete k o) k1 = Object.get? o k1 := by
  induction o with
  | nil => rfl
  | cons p o ih =>
    rw [Object.delete_cons, Object.get?_cons]
    by_cases hp : p.1 = k
    · have hne : ¬ p.1 = k1 := fun e => h (e.symm.trans hp)
      rw [if_pos hp, if_neg hne, ih]
    · rw [if_neg hp, Object.get?_cons, ih]

theorem Object.has_delete_of_ne {α : Type} (k k1 : String) (o : Obj α) (h : k1 ≠ k) :
    Object.has k1 (Object.delete k o) = Object.has k1 o := by
  rw [Object.has_eq_isSome, Object.has_eq_isSome, Object.get?_delete_of_ne k k1 o h]

theorem Object.get?_delete_self {α : Type} (k : String) (o : Obj α) :
    Object.get? (Object.delete k o) k = none := by
  induction o with
  | nil => rfl
  | cons p o ih =>
    rw [Object.delete_cons]
    by_cases hp : p.1 = k
    · rw [if_pos hp, ih]
    · rw [if_neg hp, Object.get?_cons, if_neg hp, ih]

theorem Object.get?_of_getElem? {α : Type} (o : Obj α) (h : (Object.keys o).Nodup)
    (i : Nat) (p : String × α) (hp : o[i]? = some p) : Object.get? o p.1 = some p.2 := by
  induction o generalizing i with
  | nil => simp at hp
  | cons q o ih =>
    simp only [Object.keys, List.map_cons, List.nodup_cons, List.mem_map, not_exists,
      not_and] at h
    rw [Object.get?_cons]
    cases i with
    | zero =>
      simp only [List.getElem?_cons_zero, Option.some.injEq] at hp
      subst hp
      simp
    | succ j =>
      simp only [List.getElem?_cons_succ] at hp
      have hmem : p ∈ o := List.mem_iff_getElem?.mpr ⟨j, hp⟩
      have hne : ¬ q.1 = p.1 := fun e => h.1 p hmem e.symm
      rw [if_neg hne]
      exact ih h.2 j hp

/-! `sqlForPartialUpdate` -/

theorem sqlForPartialUpdate_of_ne_nil (dataToUpdate : Obj JsValue) (jsToSql : Obj String)
    (hne : dataToUpdate ≠ []) :
    sqlForPartialUpdate dataToUpdate jsToSql =
      .ok { setCols := ", ".intercalate (sqlCols (Object.keys dataToUpdate) jsToSql),
            values := Object.values dataToUpdate } := by
  have hlen : (Object.keys dataToUpdate).length ≠ 0 := by
    simpa [Object.keys] using hne
  simp only [sqlForPartialUpdate, if_neg hlen]

theorem sqlForPartialUpdate_nil (jsToSql : Obj String) :
    sqlForPartialUpdate [] jsToSql = .error ⟨.BadRequestError, "No data"⟩ := rfl

/-- C1. For a non-empty `dataToUpdate` with `n` keys (distinct, as the keys of an
object are), `sqlForPartialUpdate` returns `values` of length `n` and a `setCols`
that is `n` fragments joined by `", "`; the fragment at position `i` (counted
from 0) names the column of the key at position `i` and carries the placeholder
`$(i+1)`, and `values[i]` is the value `dataToUpdate` holds under that key. -/
theorem sqlForPartialUpdate_placeholders_align (dataToUpdate : Obj JsValue)
    (jsToSql : Obj String) (hne : dataToUpdate ≠ [])
    (hkeys : (Object.keys dataToUpdate).Nodup) :
    ∃ r frags, sqlForPartialUpdate dataToUpdate jsToSql = .ok r ∧
      r.values.length = (Object.keys dataToUpdate).length ∧
      r.setCols = ", ".intercalate frags ∧
      frags.length = (Object.keys dataToUpdate).length ∧
      ∀ i, i < (Object.keys dataToUpdate).length →
        ∃ k v, (Object.keys dataToUpdate)[i]? = some k ∧
          frags[i]? = some ("\"" ++ sqlColumn jsToSql k ++ "\"=$" ++ toString (i + 1)) ∧
          r.values[i]? = some v ∧
          Object.get? dataToUpdate k = some v := by
  refine ⟨_, sqlCols (Object.keys dataToUpdate) jsToSql,
    sqlForPartialUpdate_of_ne_nil dataToUpdate jsToSql hne, ?_, rfl, ?_, ?_⟩
  · simp [Object.values, Object.keys]
  · simp [sqlCols]
  · intro i hi
    have hi1 : i < dataToUpdate.length := by simpa [Object.keys] using hi
    have hp : dataToUpdate[i]? = some dataToUpdate[i] := List.getElem?_eq_getElem hi1
    refine ⟨dataToUpdate[i].1, dataToUpdate[i].2, ?_, ?_, ?_, ?_⟩
    · simp [Object.keys, hp]
    · simp [sqlCols, Object.keys, hp]
    · simp [Object.values, hp]
    · exact Object.get?_of_getElem? dataToUpdate hkeys i _ hp

theorem sqlForPartialUpdate_placeholders_align_witness :
    ∃ r frags, sqlForPartialUpdate
        [("firstName", .str "Dylan"), ("lastName", .str "Steele"), ("email", .str "x")]
        [("firstName", "first_name"), ("lastName", "last_name")] = .ok r ∧
      r.values.length = 3 ∧ r.setCols = ", ".intercalate frags ∧ frags.length = 3 ∧
      ∀ i, i < 3 →
        ∃ k v, (["firstName", "lastName", "email"] : List String)[i]? = some k ∧
          frags[i]? = some ("\"" ++ sqlColumn
            [("firstName", "first_name"), ("lastName", "last_name")] k ++ "\"=$"
              ++ toString (i + 1)) ∧
          r.values[i]? = some v ∧
          Object.get? [("firstName", JsValue.str "Dylan"), ("lastName", .str "Steele"),
            ("email", .str "x")] k = some v :=
  sqlForPartialUpdate_placeholders_align
    [("firstName", .str "Dylan"), ("lastName", .str "Steele"), ("email", .str "x")]
    [("firstName", "first_name"), ("lastName", "last_name")] (by decide) (by decide)

/-- C2. With no keys in `dataToUpdate`, `sqlForPartialUpdate` throws
`BadRequestError` with message "No data" whatever `jsToSql` is; with at least
one key it returns a result. -/
theorem sqlForPartialUpdate_throws_exactly_without_keys (dataToUpdate : Obj JsValue)
    (jsToSql : Obj String) :
    (Object.keys dataToUpdate = [] →
      sqlForPartialUpdate dataToUpdate jsToSql = .error ⟨.BadRequestError, "No data"⟩) ∧
    (Object.keys dataToUpdate ≠ [] →
      ∃ r, sqlForPartialUpdate dataToUpdate jsToSql = .ok r) := by
  constructor
  · intro h
    have hnil : dataToUpdate = [] := by simpa [Object.keys] using h
    subst hnil
    rfl
  · intro h
    have hne : dataToUpdate ≠ [] := by simpa [Object.keys] using h
    exact ⟨_, sqlForPartialUpdate_of_ne_nil dataToUpdate jsToSql hne⟩

theorem sqlForPartialUpdate_throws_exactly_without_keys_witness :
    sqlForPartialUpdate [] [("firstName", "first_name")]
        = .error ⟨.BadRequestError, "No data"⟩ ∧
    ∃ r, sqlForPartialUpdate [("title", .str "updated")] [("firstName", "first_name")]
        = .ok r :=
  ⟨(sqlForPartialUpdate_throws_exactly_without_keys [] [("firstName", "first_name")]).1 rfl,
   (sqlForPartialUpdate_throws_exactly_without_keys [("title", .str "updated")]
      [("firstName", "first_name")]).2 (by decide)⟩

/-- C3, as stated, fails: with `jsToSql = {email: ""}` the table has an entry for
`email`, yet the fragment names the key, `"email"=$1`, not the entry, `""=$1`. -/
theorem sqlForPartialUpdate_empty_entry_falls_back :
    (sqlForPartialUpdate [("email", .str "x")] [("email", "")]).map (fun r => r.setCols)
        = .ok "\"email\"=$1" ∧
    Object.get? ([("email", "")] : Obj String) "email" = some "" ∧
    setColsAsStated [("email", .str "x")] [("email", "")] = "\"\"=$1" := by
  decide

/-- The column for a key that names a property of `Object.prototype`, with a
table that has no entry of its own for it: `{constructor: "x"}` with `{}` gives
the source text of the function `Object` as the column, not the key. -/
theorem sqlForPartialUpdate_inherited_name :
    Object.get? ([] : Obj String) "constructor" = none ∧
    sqlForPartialUpdate [("constructor", .str "x")] []
      = .ok ⟨"\"function Object() \x7b [native code] \x7d\"=$1", [.str "x"]⟩ ∧
    sqlForPartialUpdate [("constructor", .str "x")] [("constructor", "kind")]
      = .ok ⟨"\"kind\"=$1", [.str "x"]⟩ := by
  decide

/-- The order of the fragments is the order in which `Object.keys` lists the
keys, which is not always the order in which they were written: the object
`{b: "x", 1: "y"}` lists `1` before `b`, and so do the fragments and the values;
the object of the test lists its keys as written. -/
theorem sqlForPartialUpdate_literal_order :
    Object.literal [("b", JsValue.str "x"), ("1", .str "y")] = [("1", .str "y"), ("b", .str "x")] ∧
    sqlForPartialUpdate (Object.literal [("b", .str "x"), ("1", .str "y")]) []
      = .ok ⟨"\"1\"=$1, \"b\"=$2", [.str "y", .str "x"]⟩ ∧
    Object.literal [("firstName", JsValue.str "Dylan"), ("lastName", .str "Steele"),
        ("email", .str "x")]
      = [("firstName", .str "Dylan"), ("lastName", .str "Steele"), ("email", .str "x")] := by
  decide

/-- C3, amended. For a non-empty `dataToUpdate` and a plain object `jsToSql`,
`setCols` is one fragment per key, in the order in which `Object.keys` lists the
keys, joined by `", "`; the fragment of the key `k` at position `i` (from 0) is
`"<col>"=$(i+1)`, where `col` is the own entry of `jsToSql` for `k` when there
is one and it is not the empty string; `k` itself when that entry is the empty
string; and `k` itself when `jsToSql` has no own entry for `k` and `k` is not
the name of a property of `Object.prototype`. (What the column is for a key
that names such a property, with no own entry, is
`sqlForPartialUpdate_inherited_name`.) -/
theorem sqlForPartialUpdate_setCols (dataToUpdate : Obj JsValue) (jsToSql : Obj String)
    (hne : dataToUpdate ≠ []) :
    ∃ r frags, sqlForPartialUpdate dataToUpdate jsToSql = .ok r ∧
      r.setCols = ", ".intercalate frags ∧
      frags.length = (Object.keys dataToUpdate).length ∧
      ∀ i k, (Object.keys dataToUpdate)[i]? = some k →
        (∀ c, Object.get? jsToSql k = some c → c ≠ "" →
          frags[i]? = some ("\"" ++ c ++ "\"=$" ++ toString (i + 1))) ∧
        (Object.get? jsToSql k = some "" →
          frags[i]? = some ("\"" ++ k ++ "\"=$" ++ toString (i + 1))) ∧
        (Object.get? jsToSql k = none → objectPrototypeText k = none →
          frags[i]? = some ("\"" ++ k ++ "\"=$" ++ toString (i + 1))) := by
  refine ⟨_, sqlCols (Object.keys dataToUpdate) jsToSql,
    sqlForPartialUpdate_of_ne_nil dataToUpdate jsToSql hne, rfl, ?_, ?_⟩
  · simp [sqlCols]
  · intro i k hk
    have hfrag : (sqlCols (Object.keys dataToUpdate) jsToSql)[i]?
        = some ("\"" ++ sqlColumn jsToSql k ++ "\"=$" ++ toString (i + 1)) := by
      simp [sqlCols, hk]
    refine ⟨?_, ?_, ?_⟩
    · intro c hc hc0
      rw [hfrag]
      simp [sqlColumn, hc, hc0]
    · intro h
      rw [hfrag]
      simp [sqlColumn, h]
    · intro h ht
      rw [hfrag]
      simp [sqlColumn, h, ht]

theorem sqlForPartialUpdate_setCols_witness :
    ∃ r, sqlForPartialUpdate
        [("firstName", .str "Dylan"), ("lastName", .str "Steele"), ("email", .str "x")]
        [("firstName", "first_name"), ("lastName", "last_name")] = .ok r ∧
      r.setCols = "\"first_name\"=$1, \"last_name\"=$2, \"email\"=$3" := by
  obtain ⟨r, frags, hr, -, -, -⟩ := sqlForPartialUpdate_setCols
    [("firstName", .str "Dylan"), ("lastName", .str "Steele"), ("email", .str "x")]
    [("firstName", "first_name"), ("lastName", "last_name")] (by decide)
  refine ⟨r, hr, ?_⟩
  have h2 : sqlForPartialUpdate
      [("firstName", .str "Dylan"), ("lastName", .str "Steele"), ("email", .str "x")]
      [("firstName", "first_name"), ("lastName", "last_name")]
      = .ok ⟨"\"first_name\"=$1, \"last_name\"=$2, \"email\"=$3",
          [.str "Dylan", .str "Steele", .str "x"]⟩ := by decide
  rw [h2] at hr
  cases hr
  rfl

/-! `Job.update` -/

theorem Job.updateData_eq_filter (data : Row) :
    Job.updateData data = data.filter (fun p => p.1 != "id" && p.1 != "companyHandle") := by
  have hstrip : (if Object.has "id" data then Object.delete "id" data else data)
      = Object.delete "id" data := by
    by_cases h : Object.has "id" data = true
    · rw [if_pos h]
    · rw [if_neg h, Object.delete_of_not_has "id" data (by simpa using h)]
  have htruthy : (JsValue.str "companyHandle").truthy = true := by decide
  simp only [Job.updateData, hstrip, htruthy, if_true]
  simp only [Object.delete, List.filter_filter]
  congr 1
  funext p
  exact Bool.and_comm _ _

/-- C4. The object `Job.update` hands to `sqlForPartialUpdate` has no `id` and no
`companyHandle` property and is `data` with exactly those two removed, the other
properties keeping their values and their order; the one statement `Job.update`
issues is the `UPDATE` whose `SET` clause is the `setCols` of that object. -/
theorem Job.update_drops_id_and_companyHandle {σ : Type} (db : Db σ) (s : σ) (id : JsValue)
    (data : Row) :
    Object.has "id" (Job.updateData data) = false ∧
    Object.has "companyHandle" (Job.updateData data) = false ∧
    Job.updateData data = data.filter (fun p => p.1 != "id" && p.1 != "companyHandle") ∧
    (Job.update db s id data).issued =
      match sqlForPartialUpdate (Job.updateData data) [] with
      | .ok r => [⟨.updateJobs r.setCols ("$" ++ toString (r.values.length + 1)),
          r.values ++ [id]⟩]
      | .error _ => [] := by
  refine ⟨?_, ?_, Job.updateData_eq_filter data, ?_⟩
  · rw [Job.updateData_eq_filter]
    simp only [Object.has, List.any_eq_false, List.mem_filter]
    intro p hp
    simpa using (by simpa using hp.2 : ¬ p.1 = "id" ∧ ¬ p.1 = "companyHandle").1
  · rw [Job.updateData_eq_filter]
    simp only [Object.has, List.any_eq_false, List.mem_filter]
    intro p hp
    simpa using (by simpa using hp.2 : ¬ p.1 = "id" ∧ ¬ p.1 = "companyHandle").2
  · unfold Job.update
    cases sqlForPartialUpdate (Job.updateData data) [] with
    | error e => rfl
    | ok r =>
      simp only []
      rcases hq : db s ⟨.updateJobs r.setCols ("$" ++ toString (r.values.length + 1)),
        r.values ++ [id]⟩ with ⟨res, s1⟩
      cases res with
      | error e => rfl
      | ok result =>
        simp only []
        cases result[0]? <;> rfl

/-- C5. When every key of `data` is `id` or `companyHandle` (also when `data` is
empty), `Job.update` fails with `BadRequestError` and sends nothing to the
store, which it leaves untouched. -/
theorem Job.update_rejects_identity_only {σ : Type} (db : Db σ) (s : σ) (id : JsValue)
    (data : Row) (hkeys : ∀ k ∈ Object.keys data, k = "id" ∨ k = "companyHandle") :
    (Job.update db s id data).outcome = .error ⟨.BadRequestError, "No data"⟩ ∧
    (Job.update db s id data).issued = [] ∧
    (Job.update db s id data).store = s := by
  have hnil : Job.updateData data = [] := by
    rw [Job.updateData_eq_filter, List.filter_eq_nil_iff]
    intro p hp
    have := hkeys p.1 (List.mem_map_of_mem Prod.fst hp)
    rcases this with h | h <;> simp [h]
  simp [Job.update, hnil, sqlForPartialUpdate_nil]

theorem Job.update_rejects_identity_only_witness :
    (Job.update (pgDb noRows) fixtureStore (.num 1)
        [("id", .num 9999), ("companyHandle", .str "invalid")]).outcome
      = .error ⟨.BadRequestError, "No data"⟩ ∧
    (Job.update (pgDb noRows) fixtureStore (.num 1)
        [("id", .num 9999), ("companyHandle", .str "invalid")]).issued = [] ∧
    (Job.update (pgDb noRows) fixtureStore (.num 1)
        [("id", .num 9999), ("companyHandle", .str "invalid")]).store = fixtureStore :=
  Job.update_rejects_identity_only (pgDb noRows) fixtureStore (.num 1)
    [("id", .num 9999), ("companyHandle", .str "invalid")] (by decide)

/-! The searches of `Job` -/

theorem searchRun_notFoundOnEmpty {σ : Type} (db : Db σ) (s : σ) (q : Query)
    (message : String) : NotFoundOnEmpty db s (searchRun db s q message) := by
  refine ⟨q, message, ?_⟩
  unfold searchRun
  rcases h : db s q with ⟨res, s1⟩
  cases res with
  | error e => exact ⟨rfl, rfl, rfl⟩
  | ok jobs =>
    cases jobs with
    | nil => exact ⟨rfl, rfl, rfl⟩
    | cons row rows => exact ⟨rfl, rfl, rfl⟩

theorem searchRun_issued {σ : Type} (db : Db σ) (s : σ) (q : Query) (message : String) :
    (searchRun db s q message).issued = [q] := by
  unfold searchRun
  rcases h : db s q with ⟨res, s1⟩
  cases res with
  | error e => rfl
  | ok jobs =>
    simp only []
    split <;> rfl

/-- C6. Each of the seven searches of `Job` sends one query and ends as the
store's answer to it dictates: when the store returns no rows the search fails
with `NotFoundError`; when the search returns, what it returns is the store's
rows, and there is at least one. -/
theorem Job.searches_notFound_on_empty {σ : Type} (db : Db σ) (s : σ)
    (title minSalary : JsValue) :
    NotFoundOnEmpty db s (Job.searchByTitle db s title) ∧
    NotFoundOnEmpty db s (Job.searchByMinSalary db s minSalary) ∧
    NotFoundOnEmpty db s (Job.searchByEquity db s) ∧
    NotFoundOnEmpty db s (Job.searchByEquityAndSalary db s minSalary) ∧
    NotFoundOnEmpty db s (Job.searchByTitleAndSalary db s title minSalary) ∧
    NotFoundOnEmpty db s (Job.searchByTitleAndEquity db s title) ∧
    NotFoundOnEmpty db s (Job.searchByTitleEquityAndSalary db s title minSalary) :=
  ⟨searchRun_notFoundOnEmpty db s _ _, searchRun_notFoundOnEmpty db s _ _,
   searchRun_notFoundOnEmpty db s _ _, searchRun_notFoundOnEmpty db s _ _,
   searchRun_notFoundOnEmpty db s _ _, searchRun_notFoundOnEmpty db s _ _,
   searchRun_notFoundOnEmpty db s _ _⟩

/-! `GET /jobs` -/

theorem hasEquityTrue_eq (query : QueryParams) :
    hasEquityTrue query = decide (Object.get? query "hasEquity" = some "true") := by
  unfold hasEquityTrue
  rw [Object.has_eq_isSome]
  cases h : Object.get? query "hasEquity" with
  | none => simp
  | some v => by_cases hv : v = "true" <;> simp [hv]

theorem getJobs_eq_dispatch {σ : Type} (db : Db σ) (s : σ) (query : QueryParams) :
    getJobs db s query = replyJobs (jobsDispatch db s (Object.get? query "title")
      (Object.get? query "minSalary")
      (decide (Object.get? query "hasEquity" = some "true"))) := by
  unfold getJobs jobsDispatch
  rw [Object.has_eq_isSome, Object.has_eq_isSome, hasEquityTrue_eq]
  cases ht : Object.get? query "title" <;> cases hm : Object.get? query "minSalary" <;>
    cases he : decide (Object.get? query "hasEquity" = some "true") <;>
    simp [QueryParams.prop, ht, hm]

theorem replyJobs_issued {σ : Type} (r : Run σ (List Row)) :
    (replyJobs r).issued = r.issued := by
  unfold replyJobs
  cases r.outcome <;> rfl

theorem Job.findAll_issued {σ : Type} (db : Db σ) (s : σ) :
    (Job.findAll db s).issued = [⟨.selectJobs none, []⟩] := by
  simp only [Job.findAll]
  split <;> rfl

/-- C7. The handler of `GET /jobs` runs exactly one method of `Job`, fixed by
which of `title` and `minSalary` are present and by whether `hasEquity` is
present with the text `true`, and replies with what that method yields. -/
theorem getJobs_runs_one_method {σ : Type} (db : Db σ) (s : σ) (query : QueryParams) :
    getJobs db s query = replyJobs
      (match Object.get? query "title", Object.get? query "minSalary",
          decide (Object.get? query "hasEquity" = some "true") with
        | some title, some minSalary, true =>
          Job.searchByTitleEquityAndSalary db s (.str title) (.str minSalary)
        | some title, some minSalary, false =>
          Job.searchByTitleAndSalary db s (.str title) (.str minSalary)
        | some title, none, true => Job.searchByTitleAndEquity db s (.str title)
        | some title, none, false => Job.searchByTitle db s (.str title)
        | none, some minSalary, true => Job.searchByEquityAndSalary db s (.str minSalary)
        | none, some minSalary, false => Job.searchByMinSalary db s (.str minSalary)
        | none, none, true => Job.searchByEquity db s
        | none, none, false => Job.findAll db s) :=
  getJobs_eq_dispatch db s query

/-- C8. When `hasEquity` is present with a text other than `true`, the handler
of `GET /jobs` does what it does for the same query without `hasEquity`, and
the statement it sends has no test on the equity column. -/
theorem getJobs_hasEquity_not_true {σ : Type} (db : Db σ) (s : σ) (query : QueryParams)
    (v : String) (hv : Object.get? query "hasEquity" = some v) (hne : v ≠ "true") :
    getJobs db s query = getJobs db s (Object.delete "hasEquity" query) ∧
    ∀ q ∈ (getJobs db s query).issued, ∀ c, q.text = .selectJobs (some c) →
      c.testsEquity = false := by
  have he : decide (Object.get? query "hasEquity" = some "true") = false := by
    simp [hv, hne]
  constructor
  · rw [getJobs_eq_dispatch, getJobs_eq_dispatch, Object.get?_delete_self,
      Object.get?_delete_of_ne "hasEquity" "title" query (by decide),
      Object.get?_delete_of_ne "hasEquity" "minSalary" query (by decide), he]
    rfl
  · rw [getJobs_eq_dispatch, he, replyJobs_issued]
    intro q hq c hc
    cases ht : Object.get? query "title" <;> cases hm : Object.get? query "minSalary" <;>
      simp only [ht, hm, jobsDispatch] at hq
    · rw [Job.findAll_issued, List.mem_singleton] at hq
      subst hq
      cases hc
    · rw [Job.searchByMinSalary, ← searchRun, searchRun_issued, List.mem_singleton] at hq
      subst hq
      cases hc
      rfl
    · rw [Job.searchByTitle, ← searchRun, searchRun_issued, List.mem_singleton] at hq
      subst hq
      cases hc
      rfl
    · rw [Job.searchByTitleAndSalary, ← searchRun, searchRun_issued, List.mem_singleton] at hq
      subst hq
      cases hc
      rfl

theorem getJobs_hasEquity_not_true_witness :
    getJobs (pgDb noRows) fixtureStore [("minSalary", "2"), ("hasEquity", "false")]
      = getJobs (pgDb noRows) fixtureStore
          (Object.delete "hasEquity" [("minSalary", "2"), ("hasEquity", "false")]) ∧
    ∀ q ∈ (getJobs (pgDb noRows) fixtureStore
        [("minSalary", "2"), ("hasEquity", "false")]).issued,
      ∀ c, q.text = .selectJobs (some c) → c.testsEquity = false :=
  getJobs_hasEquity_not_true (pgDb noRows) fixtureStore
    [("minSalary", "2"), ("hasEquity", "false")] "false" (by decide) (by decide)

/-! `ILIKE` against a pattern wrapped in `%` -/

theorem likeTokens_literal_then_percent (p : List Char)
    (hlit : ∀ c ∈ p, c ≠ '%' ∧ c ≠ '_' ∧ c ≠ '\\') :
    likeTokens false (p ++ ['%']) = p.map LikeToken.lit ++ [LikeToken.anyRun] := by
  induction p with
  | nil => simp [likeTokens]
  | cons c p ih =>
    obtain ⟨h1, h2, h3⟩ := hlit c (List.mem_cons_self _ _)
    have hp : ∀ d ∈ p, d ≠ '%' ∧ d ≠ '_' ∧ d ≠ '\\' :=
      fun d hd => hlit d (List.mem_cons_of_mem _ hd)
    rw [List.cons_append, likeTokens, if_neg h3, if_neg h1, if_neg h2, ih hp]
    rfl

/-- A run of literal characters followed by `%` matches the texts that start
with that run, letter case aside. -/
theorem matchTokens_literal_then_anyRun (p t : List Char) :
    matchTokens (p.map LikeToken.lit ++ [LikeToken.anyRun]) t = true ↔
      p.map Char.toLower <+: t.map Char.toLower := by
  induction p generalizing t with
  | nil =>
    simp only [List.map_nil, List.nil_append, matchTokens, List.nil_prefix, iff_true,
      List.any_eq_true]
    exact ⟨[], (List.mem_tails _ _).mpr (List.nil_suffix), rfl⟩
  | cons c p ih =>
    cases t with
    | nil => simp [matchTokens]
    | cons x t =>
      rw [List.map_cons, List.cons_append, matchTokens, Bool.and_eq_true, ih t,
        List.map_cons, List.map_cons, List.cons_prefix_cons, beq_iff_eq]

theorem suffix_map_iff {α β : Type} (f : α → β) (u : List β) (s : List α) :
    u <:+ s.map f ↔ ∃ t, t <:+ s ∧ t.map f = u := by
  constructor
  · rintro ⟨v, hv⟩
    obtain ⟨l1, l2, hs, -, h2⟩ := List.map_eq_append_iff.mp hv.symm
    exact ⟨l2, ⟨l1, hs.symm⟩, h2⟩
  · rintro ⟨t, ht, rfl⟩
    exact ht.map f

/-- `%`, literal characters, `%`: the pattern matches the texts in which the
literal run stands somewhere, letter case aside. -/
theorem likeMatch_percent_literal_percent (p : List Char)
    (hlit : ∀ c ∈ p, c ≠ '%' ∧ c ≠ '_' ∧ c ≠ '\\') (s : List Char) :
    likeMatch ('%' :: (p ++ ['%'])) s = true ↔
      p.map Char.toLower <:+: s.map Char.toLower := by
  have htok : likeTokens false ('%' :: (p ++ ['%']))
      = LikeToken.anyRun :: (p.map LikeToken.lit ++ [LikeToken.anyRun]) := by
    rw [likeTokens, if_neg (by decide), if_pos rfl, likeTokens_literal_then_percent p hlit]
  rw [likeMatch, htok, matchTokens, List.any_eq_true, List.infix_iff_prefix_suffix]
  constructor
  · rintro ⟨t, ht, hm⟩
    exact ⟨t.map Char.toLower, (matchTokens_literal_then_anyRun p t).mp hm,
      ((List.mem_tails _ _).mp ht).map _⟩
  · rintro ⟨u, hpre, hsuf⟩
    obtain ⟨t, ht, rfl⟩ := (suffix_map_iff _ _ _).mp hsuf
    exact ⟨t, (List.mem_tails _ _).mpr ht, (matchTokens_literal_then_anyRun p t).mpr hpre⟩

theorem ilike_wrapped_literal (title t : String)
    (hlit : ∀ c ∈ t.data, c ≠ '%' ∧ c ≠ '_' ∧ c ≠ '\\') :
    ilike title ("%" ++ t ++ "%") = titleContains title t := by
  have hdata : ("%" ++ t ++ "%").data = '%' :: (t.data ++ ['%']) := by
    simp [String.data_append]
  unfold ilike titleContains
  rw [hdata, Bool.eq_iff_iff, likeMatch_percent_literal_percent t.data hlit, decide_eq_true_iff]

/-! Which rows the searches return -/

theorem searchRun_outcome_of_ok {σ : Type} (db : Db σ) (s s1 : σ) (q : Query)
    (message : String) (found : List Row) (h : db s q = (.ok found, s1)) :
    (searchRun db s q message).outcome =
      if found.length = 0 then .error (NotFoundError message) else .ok found := by
  unfold searchRun
  simp only [h]
  split <;> rfl

theorem Job.searchByTitle_eq_searchRun {σ : Type} (db : Db σ) (s : σ) (t : String) :
    Job.searchByTitle db s (.str t) =
      searchRun db s ⟨.selectJobs (some (.titleILike 1)), [.str ("%" ++ t ++ "%")]⟩
        ("No jobs found with title: " ++ ("%" ++ t ++ "%")) := rfl

theorem Job.searchByMinSalary_eq_searchRun {σ : Type} (db : Db σ) (s : σ) (m : Int) :
    Job.searchByMinSalary db s (.num m) =
      searchRun db s ⟨.selectJobs (some (.salaryGe 1)), [.num m]⟩
        ("No jobs found with salary " ++ toString m ++ " or more") := rfl

/-- C9, as stated, fails: `_` in the search string is a wildcard of `ILIKE`.
Over the titles j1, j2, j3 the search for `j_` returns all three rows, and none
of the titles contains `j_`. -/
theorem Job.searchByTitle_wildcard_in_search_string :
    (Job.searchByTitle (pgDb noRows) fixtureStore (.str "j_")).outcome
      = .ok [[("id", .num 1), ("title", .str "j1"), ("salary", .num 1),
                ("equity", .str "0.1"), ("companyName", .str "C1")],
             [("id", .num 2), ("title", .str "j2"), ("salary", .num 2),
                ("equity", .str "0.2"), ("companyName", .str "C2")],
             [("id", .num 3), ("title", .str "j3"), ("salary", .num 3),
                ("equity", .str "0.3"), ("companyName", .str "C3")]] ∧
    (jobsJoinCompanies fixtureStore).filter (fun jc => titleContains jc.1.title "j_") = [] := by
  decide

/-- C9, amended. For a search string `t` with none of the characters `%`, `_`
and backslash, `Job.searchByTitle(t)` sends the job `SELECT` with
`j.title ILIKE $1` and the pattern `"%" + t + "%"`, and over every store content
it returns exactly the joined job rows whose title contains `t` as a substring
under case-insensitive comparison, failing with `NotFoundError` when there is
none. -/
theorem Job.searchByTitle_returns_substring_matches (other : Db Store) (st : Store)
    (t : String) (hlit : ∀ c ∈ t.data, c ≠ '%' ∧ c ≠ '_' ∧ c ≠ '\\') :
    (Job.searchByTitle (pgDb other) st (.str t)).issued
      = [⟨.selectJobs (some (.titleILike 1)), [.str ("%" ++ t ++ "%")]⟩] ∧
    (Job.searchByTitle (pgDb other) st (.str t)).outcome =
      match ((jobsJoinCompanies st).filter
          (fun jc => titleContains jc.1.title t)).map jobView with
      | [] => .error (NotFoundError ("No jobs found with title: " ++ ("%" ++ t ++ "%")))
      | row :: rows => .ok (row :: rows) := by
  rw [Job.searchByTitle_eq_searchRun]
  constructor
  · exact searchRun_issued _ _ _ _
  · have hholds : ∀ j : JobRecord,
        Cond.holds [.str ("%" ++ t ++ "%")] j (.titleILike 1) = titleContains j.title t := by
      intro j
      simp [Cond.holds, pgParam, pgText, JsValue.toJsString, ilike_wrapped_literal _ t hlit]
    have hstore : pgDb other st ⟨.selectJobs (some (.titleILike 1)), [.str ("%" ++ t ++ "%")]⟩
        = (.ok (((jobsJoinCompanies st).filter
            (fun jc => titleContains jc.1.title t)).map jobView), st) := by
      simp only [pgDb, pgSelectJobs, hholds]
      simp [Cond.accepts, pgParam]
    rw [searchRun_outcome_of_ok _ _ _ _ _ _ hstore]
    cases ((jobsJoinCompanies st).filter (fun jc => titleContains jc.1.title t)).map jobView
      <;> rfl

theorem Job.searchByTitle_returns_substring_matches_witness :
    (Job.searchByTitle (pgDb noRows) fixtureStore (.str "J2")).issued
      = [⟨.selectJobs (some (.titleILike 1)), [.str "%J2%"]⟩] ∧
    (Job.searchByTitle (pgDb noRows) fixtureStore (.str "J2")).outcome
      = .ok [[("id", .num 2), ("title", .str "j2"), ("salary", .num 2),
                ("equity", .str "0.2"), ("companyName", .str "C2")]] := by
  have h := Job.searchByTitle_returns_substring_matches noRows fixtureStore "J2" (by decide)
  refine ⟨h.1, ?_⟩
  rw [h.2]
  decide

/-- C10. Over every store content and for every threshold `m`,
`Job.searchByMinSalary(m)` returns exactly the joined job rows that have a
salary of at least `m`, a salary equal to `m` included, and fails with
`NotFoundError` when there is none. -/
theorem Job.searchByMinSalary_returns_salary_at_least (other : Db Store) (st : Store)
    (m : Int) :
    (Job.searchByMinSalary (pgDb other) st (.num m)).outcome =
      match ((jobsJoinCompanies st).filter
          (fun jc => salaryAtLeast m jc.1.salary)).map jobView with
      | [] => .error (NotFoundError ("No jobs found with salary " ++ toString m ++ " or more"))
      | row :: rows => .ok (row :: rows) := by
  have hholds : ∀ j : JobRecord,
      Cond.holds [.num m] j (.salaryGe 1) = salaryAtLeast m j.salary := by
    intro j
    cases hs : j.salary <;>
      simp [Cond.holds, pgParam, pgInteger, salaryAtLeast, hs, Option.join]
  have hstore : pgDb other st ⟨.selectJobs (some (.salaryGe 1)), [.num m]⟩
      = (.ok (((jobsJoinCompanies st).filter
          (fun jc => salaryAtLeast m jc.1.salary)).map jobView), st) := by
    simp only [pgDb, pgSelectJobs, hholds]
    simp [Cond.accepts, pgParam, pgInteger]
  rw [Job.searchByMinSalary_eq_searchRun, searchRun_outcome_of_ok _ _ _ _ _ _ hstore]
  cases ((jobsJoinCompanies st).filter (fun jc => salaryAtLeast m jc.1.salary)).map jobView
    <;> rfl

/-- The figures of the test: over salaries 1, 2 and 3, threshold 2 gives two
rows and threshold 3 gives one. -/
theorem Job.searchByMinSalary_fixture :
    (Job.searchByMinSalary (pgDb noRows) fixtureStore (.num 2)).outcome
      = .ok [[("id", .num 2), ("title", .str "j2"), ("salary", .num 2),
                ("equity", .str "0.2"), ("companyName", .str "C2")],
             [("id", .num 3), ("title", .str "j3"), ("salary", .num 3),
                ("equity", .str "0.3"), ("companyName", .str "C3")]] ∧
    (Job.searchByMinSalary (pgDb noRows) fixtureStore (.num 3)).outcome
      = .ok [[("id", .num 3), ("title", .str "j3"), ("salary", .num 3),
                ("equity", .str "0.3"), ("companyName", .str "C3")]] := by
  decide

/-! Combined searches -/

theorem pgDb_selectJobs_where (other : Db Store) (st : Store) (c : Cond)
    (values : List JsValue) (p : JobRecord → Bool) (hacc : c.accepts values = true)
    (hp : ∀ j, c.holds values j = p j) :
    pgDb other st ⟨.selectJobs (some c), values⟩ = (.ok (jobRowsWhere st p), st) := by
  simp only [pgDb, pgSelectJobs, hacc, if_true, hp, jobRowsWhere]

theorem searchRun_outcome_rowsOrNotFound {σ : Type} (db : Db σ) (s s1 : σ) (q : Query)
    (message : String) (found : List Row) (h : db s q = (.ok found, s1)) :
    (searchRun db s q message).outcome = rowsOrNotFound message found := by
  rw [searchRun_outcome_of_ok db s s1 q message found h]
  cases found <;> rfl

theorem Cond.holds_titleILike (t : String) (rest : List JsValue) (j : JobRecord) :
    Cond.holds (.str ("%" ++ t ++ "%") :: rest) j (.titleILike 1) = titleMatches j.title t := by
  simp [Cond.holds, pgParam, pgText, JsValue.toJsString, titleMatches]

theorem Cond.holds_salaryGe_first (m : Int) (rest : List JsValue) (j : JobRecord) :
    Cond.holds (.num m :: rest) j (.salaryGe 1) = salaryAtLeast m j.salary := by
  cases hs : j.salary <;> simp [Cond.holds, pgParam, pgInteger, salaryAtLeast, hs, Option.join]

theorem Cond.holds_salaryGe_second (v : JsValue) (m : Int) (rest : List JsValue)
    (j : JobRecord) :
    Cond.holds (v :: .num m :: rest) j (.salaryGe 2) = salaryAtLeast m j.salary := by
  cases hs : j.salary <;> simp [Cond.holds, pgParam, pgInteger, salaryAtLeast, hs, Option.join]

theorem Cond.holds_equityPos (values : List JsValue) (j : JobRecord) :
    Cond.holds values j .equityPos = equityPositive j.equity := by
  cases he : j.equity <;> simp [Cond.holds, equityPositive, he]

theorem Job.searchByEquity_eq_searchRun {σ : Type} (db : Db σ) (s : σ) :
    Job.searchByEquity db s =
      searchRun db s ⟨.selectJobs (some .equityPos), []⟩ "No jobs found with equity > 0" := rfl

theorem Job.searchByEquityAndSalary_eq_searchRun {σ : Type} (db : Db σ) (s : σ) (m : Int) :
    Job.searchByEquityAndSalary db s (.num m) =
      searchRun db s ⟨.selectJobs (some (.and .equityPos (.salaryGe 1))), [.num m]⟩
        ("No jobs found with equity > 0 and salary >= " ++ toString m) := rfl

theorem Job.searchByTitleAndSalary_eq_searchRun {σ : Type} (db : Db σ) (s : σ) (t : String)
    (m : Int) :
    Job.searchByTitleAndSalary db s (.str t) (.num m) =
      searchRun db s ⟨.selectJobs (some (.and (.titleILike 1) (.salaryGe 2))),
          [.str ("%" ++ t ++ "%"), .num m]⟩
        ("No jobs found with title '" ++ ("%" ++ t ++ "%") ++ "' and salary "
          ++ toString m ++ " or more") := rfl

theorem Job.searchByTitleAndEquity_eq_searchRun {σ : Type} (db : Db σ) (s : σ) (t : String) :
    Job.searchByTitleAndEquity db s (.str t) =
      searchRun db s ⟨.selectJobs (some (.and (.titleILike 1) .equityPos)),
          [.str ("%" ++ t ++ "%")]⟩
        ("No jobs found with title '" ++ ("%" ++ t ++ "%") ++ "' and equity > 0") := rfl

theorem Job.searchByTitleEquityAndSalary_eq_searchRun {σ : Type} (db : Db σ) (s : σ)
    (t : String) (m : Int) :
    Job.searchByTitleEquityAndSalary db s (.str t) (.num m) =
      searchRun db s
        ⟨.selectJobs (some (.and (.titleILike 1) (.and .equityPos (.salaryGe 2)))),
          [.str ("%" ++ t ++ "%"), .num m]⟩
        ("No jobs found with title " ++ ("%" ++ t ++ "%") ++ " and salary > "
          ++ toString m ++ " and equity > 0") := rfl

/-- C11. Over every store content, for every title `t` and threshold `m`, the
three single searches select by their own predicate (title matches `t`; salary
at least `m`; equity above zero) and each combined search returns exactly the
joined job rows that pass all of its single predicates together, failing with
`NotFoundError` when there is none. -/
theorem Job.combined_searches_conjoin (other : Db Store) (st : Store) (t : String) (m : Int) :
    (Job.searchByTitle (pgDb other) st (.str t)).outcome
      = rowsOrNotFound ("No jobs found with title: " ++ ("%" ++ t ++ "%"))
          (jobRowsWhere st (fun j => titleMatches j.title t)) ∧
    (Job.searchByMinSalary (pgDb other) st (.num m)).outcome
      = rowsOrNotFound ("No jobs found with salary " ++ toString m ++ " or more")
          (jobRowsWhere st (fun j => salaryAtLeast m j.salary)) ∧
    (Job.searchByEquity (pgDb other) st).outcome
      = rowsOrNotFound "No jobs found with equity > 0"
          (jobRowsWhere st (fun j => equityPositive j.equity)) ∧
    (Job.searchByTitleAndSalary (pgDb other) st (.str t) (.num m)).outcome
      = rowsOrNotFound ("No jobs found with title '" ++ ("%" ++ t ++ "%") ++ "' and salary "
            ++ toString m ++ " or more")
          (jobRowsWhere st (fun j => titleMatches j.title t && salaryAtLeast m j.salary)) ∧
    (Job.searchByTitleAndEquity (pgDb other) st (.str t)).outcome
      = rowsOrNotFound ("No jobs found with title '" ++ ("%" ++ t ++ "%") ++ "' and equity > 0")
          (jobRowsWhere st (fun j => titleMatches j.title t && equityPositive j.equity)) ∧
    (Job.searchByEquityAndSalary (pgDb other) st (.num m)).outcome
      = rowsOrNotFound ("No jobs found with equity > 0 and salary >= " ++ toString m)
          (jobRowsWhere st (fun j => equityPositive j.equity && salaryAtLeast m j.salary)) ∧
    (Job.searchByTitleEquityAndSalary (pgDb other) st (.str t) (.num m)).outcome
      = rowsOrNotFound ("No jobs found with title " ++ ("%" ++ t ++ "%") ++ " and salary > "
            ++ toString m ++ " and equity > 0")
          (jobRowsWhere st (fun j =>
            titleMatches j.title t && (equityPositive j.equity && salaryAtLeast m j.salary))) := by
  refine ⟨?_, ?_, ?_, ?_, ?_, ?_, ?_⟩
  · rw [Job.searchByTitle_eq_searchRun]
    exact searchRun_outcome_rowsOrNotFound _ _ _ _ _ _
      (pgDb_selectJobs_where other st _ _ _ (by rfl) (fun j => Cond.holds_titleILike t [] j))
  · rw [Job.searchByMinSalary_eq_searchRun]
    exact searchRun_outcome_rowsOrNotFound _ _ _ _ _ _
      (pgDb_selectJobs_where other st _ _ _ (by rfl) (fun j => Cond.holds_salaryGe_first m [] j))
  · rw [Job.searchByEquity_eq_searchRun]
    exact searchRun_outcome_rowsOrNotFound _ _ _ _ _ _
      (pgDb_selectJobs_where other st _ _ _ (by rfl) (fun j => Cond.holds_equityPos [] j))
  · rw [Job.searchByTitleAndSalary_eq_searchRun]
    exact searchRun_outcome_rowsOrNotFound _ _ _ _ _ _
      (pgDb_selectJobs_where other st _ _ _ (by rfl) (fun j => by
        rw [Cond.holds, Cond.holds_titleILike, Cond.holds_salaryGe_second]))
  · rw [Job.searchByTitleAndEquity_eq_searchRun]
    exact searchRun_outcome_rowsOrNotFound _ _ _ _ _ _
      (pgDb_selectJobs_where other st _ _ _ (by rfl) (fun j => by
        rw [Cond.holds, Cond.holds_titleILike, Cond.holds_equityPos]))
  · rw [Job.searchByEquityAndSalary_eq_searchRun]
    exact searchRun_outcome_rowsOrNotFound _ _ _ _ _ _
      (pgDb_selectJobs_where other st _ _ _ (by rfl) (fun j => by
        rw [Cond.holds, Cond.holds_equityPos, Cond.holds_salaryGe_first]))
  · rw [Job.searchByTitleEquityAndSalary_eq_searchRun]
    exact searchRun_outcome_rowsOrNotFound _ _ _ _ _ _
      (pgDb_selectJobs_where other st _ _ _ (by rfl) (fun j => by
        rw [Cond.holds, Cond.holds_titleILike, Cond.holds, Cond.holds_equityPos,
          Cond.holds_salaryGe_second]))

/-- The figures of the test: with d10, d90 and d99 added, title `d`, equity
and salary at least 50 give two rows, and at least 400 one row. -/
theorem Job.searchByTitleEquityAndSalary_fixture :
    (Job.searchByTitleEquityAndSalary (pgDb noRows) equityFixtureStore (.str "d")
        (.num 50)).outcome
      = .ok [[("id", .num 4), ("title", .str "d10"), ("salary", .num 100),
                ("equity", .str "0.5"), ("companyName", .str "C1")],
             [("id", .num 6), ("title", .str "d99"), ("salary", .num 550),
                ("equity", .str "0.1"), ("companyName", .str "C1")]] ∧
    (Job.searchByTitleEquityAndSalary (pgDb noRows) equityFixtureStore (.str "d")
        (.num 400)).outcome
      = .ok [[("id", .num 6), ("title", .str "d99"), ("salary", .num 550),
                ("equity", .str "0.1"), ("companyName", .str "C1")]] := by
  decide

/-! `Job.update`, `Job.remove`, `Job.get`: the row asked for is not there -/

theorem Job.updateData_ne_nil (data : Row)
    (hfield : ∃ k ∈ Object.keys data, k ≠ "id" ∧ k ≠ "companyHandle") :
    Job.updateData data ≠ [] := by
  obtain ⟨k, hk, h1, h2⟩ := hfield
  obtain ⟨p, hp, rfl⟩ := List.mem_map.mp hk
  rw [Job.updateData_eq_filter]
  intro hnil
  have hmem : p ∈ data.filter (fun p => p.1 != "id" && p.1 != "companyHandle") :=
    List.mem_filter.mpr ⟨hp, by simp [h1, h2]⟩
  rw [hnil] at hmem
  simp at hmem

/-- C13. When `data` has a key other than `id` and `companyHandle`, `Job.update`
sends one statement, the `UPDATE`, and ends as the store's answer dictates:
`NotFoundError` when the `UPDATE` returns no row, the first returned row
otherwise (an error of the store itself is passed on). -/
theorem Job.update_notFound_or_first_row {σ : Type} (db : Db σ) (s : σ) (id : JsValue)
    (data : Row) (hfield : ∃ k ∈ Object.keys data, k ≠ "id" ∧ k ≠ "companyHandle") :
    ∃ q setCols idVariableIndex,
      q.text = .updateJobs setCols idVariableIndex ∧
      (Job.update db s id data).issued = [q] ∧
      (Job.update db s id data).store = (db s q).2 ∧
      (Job.update db s id data).outcome =
        match (db s q).1 with
        | .error e => .error e
        | .ok [] => .error (NotFoundError ("No job with id " ++ id.toJsString))
        | .ok (job :: _) => .ok job := by
  have hok := sqlForPartialUpdate_of_ne_nil (Job.updateData data) []
    (Job.updateData_ne_nil data hfield)
  refine ⟨⟨.updateJobs (", ".intercalate (sqlCols (Object.keys (Job.updateData data)) []))
      ("$" ++ toString ((Object.values (Job.updateData data)).length + 1)),
      Object.values (Job.updateData data) ++ [id]⟩, _, _, rfl, ?_⟩
  simp only [Job.update, hok]
  rcases db s _ with ⟨res, s1⟩
  cases res with
  | error e => exact ⟨rfl, rfl, rfl⟩
  | ok result =>
    cases result with
    | nil => exact ⟨rfl, rfl, rfl⟩
    | cons job rest => simp

theorem Job.update_notFound_or_first_row_witness :
    ∃ q setCols idVariableIndex,
      q.text = .updateJobs setCols idVariableIndex ∧
      (Job.update noRows fixtureStore (.num 9999) [("title", .str "updated")]).issued = [q] ∧
      (Job.update noRows fixtureStore (.num 9999) [("title", .str "updated")]).store
        = (noRows fixtureStore q).2 ∧
      (Job.update noRows fixtureStore (.num 9999) [("title", .str "updated")]).outcome =
        match (noRows fixtureStore q).1 with
        | .error e => .error e
        | .ok [] => .error (NotFoundError ("No job with id " ++ (JsValue.num 9999).toJsString))
        | .ok (job :: _) => .ok job :=
  Job.update_notFound_or_first_row noRows fixtureStore (.num 9999) [("title", .str "updated")]
    ⟨"title", by decide, by decide, by decide⟩

/-- C14. `Job.remove(id)` sends the `DELETE` for `id` and ends as the store's
answer dictates: `NotFoundError` when the `DELETE` returns no row, and otherwise
it completes with no value (an error of the store itself is passed on). -/
theorem Job.remove_notFound_or_done {σ : Type} (db : Db σ) (s : σ) (id : JsValue) :
    (Job.remove db s id).issued = [⟨.deleteJob, [id]⟩] ∧
    (Job.remove db s id).store = (db s ⟨.deleteJob, [id]⟩).2 ∧
    (Job.remove db s id).outcome =
      match (db s ⟨.deleteJob, [id]⟩).1 with
      | .error e => .error e
      | .ok [] => .error (NotFoundError ("No job found with id " ++ id.toJsString))
      | .ok (_ :: _) => .ok () := by
  simp only [Job.remove]
  rcases db s ⟨.deleteJob, [id]⟩ with ⟨res, s1⟩
  cases res with
  | error e => exact ⟨rfl, rfl, rfl⟩
  | ok result =>
    cases result with
    | nil => exact ⟨rfl, rfl, rfl⟩
    | cons job rest => simp

/-- C15. `Job.get(id)` sends the job `SELECT` with `WHERE j.id=$1` for `id` and
ends as the store's answer dictates: `NotFoundError` when the store returns no
row, the first returned row otherwise (an error of the store itself is passed
on). -/
theorem Job.get_notFound_or_first_row {σ : Type} (db : Db σ) (s : σ) (id : JsValue) :
    (Job.get db s id).issued = [⟨.selectJobs (some (.idEq 1)), [id]⟩] ∧
    (Job.get db s id).store = (db s ⟨.selectJobs (some (.idEq 1)), [id]⟩).2 ∧
    (Job.get db s id).outcome =
      match (db s ⟨.selectJobs (some (.idEq 1)), [id]⟩).1 with
      | .error e => .error e
      | .ok [] => .error (NotFoundError ("No job found with id " ++ id.toJsString))
      | .ok (job :: _) => .ok job := by
  simp only [Job.get]
  rcases db s ⟨.selectJobs (some (.idEq 1)), [id]⟩ with ⟨res, s1⟩
  cases res with
  | error e => exact ⟨rfl, rfl, rfl⟩
  | ok result =>
    cases result with
    | nil => exact ⟨rfl, rfl, rfl⟩
    | cons job rest => simp

/-! `sqlForPartialUpdate`: the statement text and the values -/

/-- C18. The text `setCols` depends on the keys and on `jsToSql` only: two
non-empty update objects with the same keys in the same order get the same
`setCols`, whatever their values, and each gets its own values in `values`. -/
theorem sqlForPartialUpdate_setCols_ignores_values (jsToSql : Obj String)
    (data1 data2 : Obj JsValue) (hne : data1 ≠ [])
    (hkeys : Object.keys data1 = Object.keys data2) :
    ∃ r1 r2, sqlForPartialUpdate data1 jsToSql = .ok r1 ∧
      sqlForPartialUpdate data2 jsToSql = .ok r2 ∧
      r1.setCols = r2.setCols ∧
      r1.values = Object.values data1 ∧ r2.values = Object.values data2 := by
  have hne2 : data2 ≠ [] := by
    intro h
    subst h
    apply hne
    simpa [Object.keys] using hkeys
  refine ⟨_, _, sqlForPartialUpdate_of_ne_nil data1 jsToSql hne,
    sqlForPartialUpdate_of_ne_nil data2 jsToSql hne2, ?_, rfl, rfl⟩
  simp only [hkeys]

theorem sqlForPartialUpdate_setCols_ignores_values_witness :
    ∃ r1 r2, sqlForPartialUpdate [("title", .str "x"), ("salary", .num 1)] [] = .ok r1 ∧
      sqlForPartialUpdate [("title", .str "y"), ("salary", .null)] [] = .ok r2 ∧
      r1.setCols = r2.setCols ∧
      r1.values = [.str "x", .num 1] ∧ r2.values = [.str "y", .null] :=
  sqlForPartialUpdate_setCols_ignores_values []
    [("title", .str "x"), ("salary", .num 1)] [("title", .str "y"), ("salary", .null)]
    (by decide) (by decide)

/-! `Job.create` -/

theorem pgStore_selectDuplicate (other : Db Store) (st : Store) (title handle : JsValue) :
    pgStore other st ⟨.selectDuplicate, [title, handle]⟩ =
      (.ok ((st.jobs.filter (fun j =>
        pgText title == some j.title && pgText handle == some j.companyHandle)).map
          (fun j => [("title", JsValue.str j.title)])), st) := rfl

theorem pgStore_selectHandles (other : Db Store) (st : Store) (values : List JsValue) :
    pgStore other st ⟨.selectHandles, values⟩ = (.ok (pgSelectHandles st), st) := rfl

theorem pgStore_insertJob (other : Db Store) (st : Store) (values : List JsValue) :
    pgStore other st ⟨.insertJob, values⟩ = other st ⟨.insertJob, values⟩ := rfl

theorem Job.create_of_duplicate {σ : Type} (db : Db σ) (s s1 : σ) (job : Row) (row : Row)
    (rows : List Row)
    (h : db s ⟨.selectDuplicate, [Object.prop job "title", Object.prop job "companyHandle"]⟩
      = (.ok (row :: rows), s1)) :
    Job.create db s job =
      ⟨.error (BadRequestError ("Duplicate job: " ++ (Object.prop job "title").toJsString)), s1,
        [⟨.selectDuplicate, [Object.prop job "title", Object.prop job "companyHandle"]⟩]⟩ := by
  simp [Job.create, h]

theorem Job.create_of_no_duplicate {σ : Type} (db : Db σ) (s s1 s2 : σ) (job : Row)
    (handleCheck : List Row)
    (h1 : db s ⟨.selectDuplicate, [Object.prop job "title", Object.prop job "companyHandle"]⟩
      = (.ok [], s1))
    (h2 : db s1 ⟨.selectHandles, []⟩ = (.ok handleCheck, s2)) :
    Job.create db s job =
      if (handleCheck.map (fun r => Object.prop r "handle")).contains
          (Object.prop job "companyHandle") then
        match db s2 ⟨.insertJob, [Object.prop job "title", Object.prop job "salary",
            Object.prop job "equity", Object.prop job "companyHandle"]⟩ with
        | (.error e, s3) => ⟨.error e, s3,
            [⟨.selectDuplicate, [Object.prop job "title", Object.prop job "companyHandle"]⟩,
             ⟨.selectHandles, []⟩,
             ⟨.insertJob, [Object.prop job "title", Object.prop job "salary",
                Object.prop job "equity", Object.prop job "companyHandle"]⟩]⟩
        | (.ok result, s3) => ⟨.ok result[0]?, s3,
            [⟨.selectDuplicate, [Object.prop job "title", Object.prop job "companyHandle"]⟩,
             ⟨.selectHandles, []⟩,
             ⟨.insertJob, [Object.prop job "title", Object.prop job "salary",
                Object.prop job "equity", Object.prop job "companyHandle"]⟩]⟩
      else
        ⟨.error (BadRequestError ("Invalid companyHandle: "
            ++ (Object.prop job "companyHandle").toJsString)), s2,
          [⟨.selectDuplicate, [Object.prop job "title", Object.prop job "companyHandle"]⟩,
           ⟨.selectHandles, []⟩]⟩ := by
  simp only [Job.create, h1, h2]
  cases (handleCheck.map (fun r => Object.prop r "handle")).contains
      (Object.prop job "companyHandle") <;> simp

theorem pgSelectHandles_contains (st : Store) (v : JsValue) :
    ((pgSelectHandles st).map (fun r => Object.prop r "handle")).contains v = true ↔
      ∃ c ∈ st.companies, v = .str c.handle := by
  have hmap : (pgSelectHandles st).map (fun r => Object.prop r "handle")
      = st.companies.map (fun c => JsValue.str c.handle) := by
    simp only [pgSelectHandles, List.map_map]
    rfl
  rw [hmap, List.contains_iff_exists_mem_beq]
  constructor
  · rintro ⟨a, ha, hv⟩
    obtain ⟨c, hc, rfl⟩ := List.mem_map.mp ha
    exact ⟨c, hc, by simpa using hv⟩
  · rintro ⟨c, hc, rfl⟩
    exact ⟨_, List.mem_map_of_mem _ hc, by simp⟩

theorem duplicates_eq_nil_iff (st : Store) (title handle : JsValue) :
    (st.jobs.filter (fun j =>
        pgText title == some j.title && pgText handle == some j.companyHandle)).map
          (fun j => [("title", JsValue.str j.title)]) = ([] : List Row) ↔
      ∀ j ∈ st.jobs, ¬ (pgText title = some j.title ∧ pgText handle = some j.companyHandle) := by
  simp [List.filter_eq_nil_iff]

/-- C16. When the store holds a job whose title and company handle are those of
the input, `Job.create` fails with `BadRequestError` after its first query, the
duplicate check: no `INSERT` is issued and the store is left as it was. -/
theorem Job.create_rejects_duplicate (other : Db Store) (st : Store) (job : Row)
    (hdup : ∃ j ∈ st.jobs, pgText (Object.prop job "title") = some j.title ∧
      pgText (Object.prop job "companyHandle") = some j.companyHandle) :
    (Job.create (pgStore other) st job).outcome
      = .error (BadRequestError ("Duplicate job: " ++ (Object.prop job "title").toJsString)) ∧
    (Job.create (pgStore other) st job).issued
      = [⟨.selectDuplicate, [Object.prop job "title", Object.prop job "companyHandle"]⟩] ∧
    (∀ q ∈ (Job.create (pgStore other) st job).issued, q.text ≠ .insertJob) ∧
    (Job.create (pgStore other) st job).store = st := by
  have hq := pgStore_selectDuplicate other st (Object.prop job "title")
    (Object.prop job "companyHandle")
  cases hrows : (st.jobs.filter (fun j =>
      pgText (Object.prop job "title") == some j.title &&
        pgText (Object.prop job "companyHandle") == some j.companyHandle)).map
          (fun j => [("title", JsValue.str j.title)]) with
  | nil =>
    exfalso
    obtain ⟨j, hj, h1, h2⟩ := hdup
    exact (duplicates_eq_nil_iff st _ _).mp hrows j hj ⟨h1, h2⟩
  | cons row rows =>
    rw [hrows] at hq
    rw [Job.create_of_duplicate _ _ _ _ _ _ hq]
    refine ⟨rfl, rfl, ?_, rfl⟩
    intro q hq1
    rw [List.mem_singleton.mp hq1]
    simp

theorem Job.create_rejects_duplicate_witness :
    (Job.create (pgStore noRows) fixtureStore
        [("title", .str "j1"), ("salary", .num 1), ("equity", .str "0.1"),
         ("companyHandle", .str "c1")]).outcome
      = .error (BadRequestError "Duplicate job: j1") ∧
    (Job.create (pgStore noRows) fixtureStore
        [("title", .str "j1"), ("salary", .num 1), ("equity", .str "0.1"),
         ("companyHandle", .str "c1")]).issued
      = [⟨.selectDuplicate, [.str "j1", .str "c1"]⟩] ∧
    (∀ q ∈ (Job.create (pgStore noRows) fixtureStore
        [("title", .str "j1"), ("salary", .num 1), ("equity", .str "0.1"),
         ("companyHandle", .str "c1")]).issued, q.text ≠ .insertJob) ∧
    (Job.create (pgStore noRows) fixtureStore
        [("title", .str "j1"), ("salary", .num 1), ("equity", .str "0.1"),
         ("companyHandle", .str "c1")]).store = fixtureStore :=
  Job.create_rejects_duplicate noRows fixtureStore
    [("title", .str "j1"), ("salary", .num 1), ("equity", .str "0.1"),
     ("companyHandle", .str "c1")]
    ⟨⟨1, "j1", some 1, some ⟨1, 1⟩, "c1"⟩, by decide, by decide, by decide⟩

/-- C17. When the `companyHandle` of the input is the handle of no company in
the store, `Job.create` fails with `BadRequestError` and issues no `INSERT`.
When it is the handle of a company and the store holds no job with the title
and company handle of the input, `Job.create` issues, after its two checks, one
`INSERT` with the values `[title, salary, equity, companyHandle]`, and its
result is the first row the `INSERT` returns (an error of the store on the
`INSERT` is passed on). -/
theorem Job.create_checks_companyHandle (other : Db Store) (st : Store) (job : Row) :
    ((∀ c ∈ st.companies, Object.prop job "companyHandle" ≠ .str c.handle) →
      (∃ message, (Job.create (pgStore other) st job).outcome
        = .error ⟨.BadRequestError, message⟩) ∧
      (∀ q ∈ (Job.create (pgStore other) st job).issued, q.text ≠ .insertJob)) ∧
    ((∃ c ∈ st.companies, Object.prop job "companyHandle" = .str c.handle) →
      (∀ j ∈ st.jobs, ¬ (pgText (Object.prop job "title") = some j.title ∧
        pgText (Object.prop job "companyHandle") = some j.companyHandle)) →
      (Job.create (pgStore other) st job).issued
        = [⟨.selectDuplicate, [Object.prop job "title", Object.prop job "companyHandle"]⟩,
           ⟨.selectHandles, []⟩,
           ⟨.insertJob, [Object.prop job "title", Object.prop job "salary",
              Object.prop job "equity", Object.prop job "companyHandle"]⟩] ∧
      (Job.create (pgStore other) st job).outcome
        = (match (other st ⟨.insertJob, [Object.prop job "title", Object.prop job "salary",
              Object.prop job "equity", Object.prop job "companyHandle"]⟩).1 with
          | .error e => .error e
          | .ok result => .ok result[0]?) ∧
      (Job.create (pgStore other) st job).store
        = (other st ⟨.insertJob, [Object.prop job "title", Object.prop job "salary",
              Object.prop job "equity", Object.prop job "companyHandle"]⟩).2) := by
  have hq := pgStore_selectDuplicate other st (Object.prop job "title")
    (Object.prop job "companyHandle")
  have hh := pgStore_selectHandles other st []
  constructor
  · intro habsent
    have hcontains : ((pgSelectHandles st).map (fun r => Object.prop r "handle")).contains
        (Object.prop job "companyHandle") = false := by
      rw [Bool.eq_false_iff]
      intro h
      obtain ⟨c, hc, hv⟩ := (pgSelectHandles_contains st _).mp h
      exact habsent c hc hv
    cases hrows : (st.jobs.filter (fun j =>
        pgText (Object.prop job "title") == some j.title &&
          pgText (Object.prop job "companyHandle") == some j.companyHandle)).map
            (fun j => [("title", JsValue.str j.title)]) with
    | nil =>
      rw [hrows] at hq
      rw [Job.create_of_no_duplicate _ _ _ _ _ _ hq hh, hcontains]
      refine ⟨⟨_, rfl⟩, ?_⟩
      intro q hq1
      simp only [Bool.false_eq_true, if_false, List.mem_cons, List.mem_singleton,
        List.not_mem_nil, or_false] at hq1
      rcases hq1 with h | h <;> rw [h] <;> simp
    | cons row rows =>
      rw [hrows] at hq
      rw [Job.create_of_duplicate _ _ _ _ _ _ hq]
      refine ⟨⟨_, rfl⟩, ?_⟩
      intro q hq1
      rw [List.mem_singleton.mp hq1]
      simp
  · intro hpresent hnodup
    have hcontains := (pgSelectHandles_contains st _).mpr hpresent
    rw [(duplicates_eq_nil_iff st _ _).mpr hnodup] at hq
    rw [Job.create_of_no_duplicate _ _ _ _ _ _ hq hh, hcontains, if_pos rfl, pgStore_insertJob]
    rcases other st ⟨.insertJob, [Object.prop job "title", Object.prop job "salary",
      Object.prop job "equity", Object.prop job "companyHandle"]⟩ with ⟨res, s3⟩
    cases res <;> exact ⟨rfl, rfl, rfl⟩

theorem Job.create_checks_companyHandle_witness :
    ((∃ message, (Job.create (pgStore noRows) fixtureStore
        [("title", .str "testtitle"), ("salary", .num 66), ("equity", .str "0"),
         ("companyHandle", .str "d7")]).outcome = .error ⟨.BadRequestError, message⟩) ∧
      (∀ q ∈ (Job.create (pgStore noRows) fixtureStore
        [("title", .str "testtitle"), ("salary", .num 66), ("equity", .str "0"),
         ("companyHandle", .str "d7")]).issued, q.text ≠ .insertJob)) ∧
    (Job.create (pgStore (oneRow [("id", .num 4), ("title", .str "new")])) fixtureStore
        [("title", .str "new"), ("salary", .num 5), ("equity", .str "0.5"),
         ("companyHandle", .str "c1")]).outcome
      = .ok (some [("id", .num 4), ("title", .str "new")]) := by
  refine ⟨(Job.create_checks_companyHandle noRows fixtureStore
      [("title", .str "testtitle"), ("salary", .num 66), ("equity", .str "0"),
       ("companyHandle", .str "d7")]).1 (by decide), ?_⟩
  exact ((Job.create_checks_companyHandle (oneRow [("id", .num 4), ("title", .str "new")])
      fixtureStore
      [("title", .str "new"), ("salary", .num 5), ("equity", .str "0.5"),
       ("companyHandle", .str "c1")]).2 ⟨⟨"c1", "C1"⟩, by decide, by decide⟩ (by decide)).2.1

/-! `GET /companies` -/

theorem replyCompanies_calls {σ : Type} (company : CompanyModel σ) (s : σ)
    (call : CompanyCall) : (replyCompanies company s call).calls = [call] := by
  unfold replyCompanies
  rcases company s call with ⟨res, s1⟩
  cases res <;> rfl

theorem queryOr_eq (query : QueryParams) (k : String) (fallback : Int) :
    queryOr query k fallback =
      match Object.get? query k with
      | some v => if v = "" then .num fallback else .str v
      | none => .num fallback := by
  unfold queryOr
  cases Object.get? query k with
  | none => rfl
  | some v => by_cases hv : v = "" <;> simp [hv]

theorem jsGreater_10_9 (ns : NumericStrings) :
    jsGreater ns (.str "10") (.str "9") = false := by
  show textLess "9".data "10".data = false
  decide

theorem getCompanies_size_10_9 {σ : Type} (ns : NumericStrings) (company : CompanyModel σ)
    (s : σ) :
    getCompanies ns company s [("min", "10"), ("max", "9")]
      = replyCompanies company s (.searchBySize (.str "10") (.str "9")) := by
  have hmin : queryOr [("min", "10"), ("max", "9")] "min" 0 = .str "10" := by decide
  have hmax : queryOr [("min", "10"), ("max", "9")] "max" 7000000 = .str "9" := by decide
  have hname : Object.has "name" ([("min", "10"), ("max", "9")] : QueryParams) = false := by
    decide
  have hb : (Object.has "min" ([("min", "10"), ("max", "9")] : QueryParams)
      || Object.has "max" ([("min", "10"), ("max", "9")] : QueryParams)) = true := by decide
  simp only [getCompanies, hname, hb, hmin, hmax, jsGreater_10_9, if_true, Bool.false_eq_true,
    if_false]

theorem getCompanies_name_size_10_9 {σ : Type} (ns : NumericStrings)
    (company : CompanyModel σ) (s : σ) :
    getCompanies ns company s [("name", "c"), ("min", "10"), ("max", "9")]
      = replyCompanies company s
          (.searchByNameAndSize (.str "c") (.str "10") (.str "9")) := by
  have hmin : queryOr [("name", "c"), ("min", "10"), ("max", "9")] "min" 0 = .str "10" := by
    decide
  have hmax : queryOr [("name", "c"), ("min", "10"), ("max", "9")] "max" 7000000
      = .str "9" := by decide
  have hname : Object.has "name" ([("name", "c"), ("min", "10"), ("max", "9")] : QueryParams)
      = true := by decide
  have hb : (Object.has "min" ([("name", "c"), ("min", "10"), ("max", "9")] : QueryParams)
      || Object.has "max" ([("name", "c"), ("min", "10"), ("max", "9")] : QueryParams))
      = true := by decide
  have hp : QueryParams.prop [("name", "c"), ("min", "10"), ("max", "9")] "name"
      = .str "c" := by decide
  simp only [getCompanies, hname, hb, hmin, hmax, jsGreater_10_9, hp, if_true,
    Bool.false_eq_true, if_false]

/-- C12 fails on the code: for `min=10` and `max=9`, both supplied and 10 above 9,
the handler compares the two texts, finds `"10" > "9"` false, throws nothing and
calls the search method with these bounds; so it does with a `name` beside
them. -/
theorem getCompanies_min_10_max_9_not_rejected {σ : Type} (ns : NumericStrings)
    (company : CompanyModel σ) (s : σ) :
    jsGreater ns (.str "10") (.str "9") = false ∧
    getCompanies ns company s [("min", "10"), ("max", "9")]
      = replyCompanies company s (.searchBySize (.str "10") (.str "9")) ∧
    getCompanies ns company s [("name", "c"), ("min", "10"), ("max", "9")]
      = replyCompanies company s (.searchByNameAndSize (.str "c") (.str "10") (.str "9")) ∧
    (getCompanies ns noCompanies fixtureStore [("min", "10"), ("max", "9")]).reply
      = .json "companies" [] ∧
    (getCompanies ns noCompanies fixtureStore [("min", "10"), ("max", "9")]).calls
      = [.searchBySize (.str "10") (.str "9")] := by
  refine ⟨jsGreater_10_9 ns, getCompanies_size_10_9 ns company s,
    getCompanies_name_size_10_9 ns company s, ?_, ?_⟩
  · rw [getCompanies_size_10_9]
    rfl
  · rw [getCompanies_size_10_9]
    rfl

/-- C20. When the query has `min` or `max`, the bounds the handler passes on are
`min`: the text of `query.min` when it is there and not empty, else the number
0, and `max`: the text of `query.max` when it is there and not empty, else the
number 7000000. With these bounds it calls `searchByNameAndSize` (when `name` is
there) or `searchBySize`, once, unless `min > max` makes it throw, in which case
it calls nothing. -/
theorem getCompanies_bounds {σ : Type} (ns : NumericStrings) (company : CompanyModel σ)
    (s : σ) (query : QueryParams)
    (hbound : Object.has "min" query = true ∨ Object.has "max" query = true) :
    ∃ min max,
      min = (match Object.get? query "min" with
        | some v => if v = "" then JsValue.num 0 else JsValue.str v
        | none => JsValue.num 0) ∧
      max = (match Object.get? query "max" with
        | some v => if v = "" then JsValue.num 7000000 else JsValue.str v
        | none => JsValue.num 7000000) ∧
      (getCompanies ns company s query).calls =
        if jsGreater ns min max then []
        else if Object.has "name" query then
          [.searchByNameAndSize (query.prop "name") min max]
        else [.searchBySize min max] := by
  refine ⟨_, _, rfl, rfl, ?_⟩
  have hb : (Object.has "min" query || Object.has "max" query) = true := by
    rcases hbound with h | h <;> simp [h]
  rw [← queryOr_eq query "min" 0, ← queryOr_eq query "max" 7000000]
  unfold getCompanies
  simp only [hb, if_true]
  cases hname : Object.has "name" query <;>
    cases hgt : jsGreater ns (queryOr query "min" 0) (queryOr query "max" 7000000) <;>
    simp [replyCompanies_calls]

theorem getCompanies_bounds_witness :
    ∃ min max,
      min = JsValue.str "5" ∧ max = JsValue.num 7000000 ∧
      (getCompanies decimalStrings noCompanies fixtureStore [("min", "5"), ("max", "")]).calls =
        if jsGreater decimalStrings min max then []
        else if Object.has "name" ([("min", "5"), ("max", "")] : QueryParams) then
          [.searchByNameAndSize (QueryParams.prop [("min", "5"), ("max", "")] "name") min max]
        else [.searchBySize min max] :=
  getCompanies_bounds decimalStrings noCompanies fixtureStore [("min", "5"), ("max", "")]
    (Or.inl (by decide))

/-! The jobs router: which routes are gated -/

theorem serve_of_gated {σ : Type} (auth : Auth) (schemas : Schemas) (db : Db σ)
    (locals : Locals) (route : Route) (s : σ) (req : Request)
    (hchain : route.chain = [.authenticateJWT, .ensureLoggedIn, .ensureAdmin]) :
    serve auth schemas db locals route s req =
      match auth.authenticateJWT req locals with
      | .error err => ⟨.next err, s, []⟩
      | .ok locals1 =>
        match auth.ensureLoggedIn req locals1 with
        | .error err => ⟨.next err, s, []⟩
        | .ok locals2 =>
          match auth.ensureAdmin req locals2 with
          | .error err => ⟨.next err, s, []⟩
          | .ok _ => runHandler schemas db route.handler s req := by
  simp only [serve, hchain, List.map_cons, List.map_nil, runChain, Auth.middleware]
  cases auth.authenticateJWT req locals with
  | error e => rfl
  | ok l1 =>
    simp only []
    cases auth.ensureLoggedIn req l1 with
    | error e => rfl
    | ok l2 =>
      simp only []
      cases auth.ensureAdmin req l2 with
      | error e => rfl
      | ok l3 => rfl

theorem serve_of_open {σ : Type} (auth : Auth) (schemas : Schemas) (db : Db σ)
    (locals : Locals) (route : Route) (s : σ) (req : Request) (hchain : route.chain = []) :
    serve auth schemas db locals route s req = runHandler schemas db route.handler s req := by
  simp only [serve, hchain, List.map_nil, runChain]

theorem jobsRoutes_chain_of_not_get (route : Route) (hr : route ∈ jobsRoutes)
    (hm : route.method ≠ "GET") :
    route.chain = [.authenticateJWT, .ensureLoggedIn, .ensureAdmin] := by
  simp only [jobsRoutes, List.mem_cons, List.mem_singleton, List.not_mem_nil, or_false] at hr
  rcases hr with rfl | rfl | rfl | rfl | rfl
  · rfl
  · exact absurd rfl hm
  · exact absurd rfl hm
  · rfl
  · rfl

theorem jobsRoutes_chain_of_get (route : Route) (hr : route ∈ jobsRoutes)
    (hm : route.method = "GET") : route.chain = [] := by
  simp only [jobsRoutes, List.mem_cons, List.mem_singleton, List.not_mem_nil, or_false] at hr
  rcases hr with rfl | rfl | rfl | rfl | rfl
  · exact absurd hm (by decide)
  · rfl
  · rfl
  · exact absurd hm (by decide)
  · exact absurd hm (by decide)

/-- C19. The routes of the jobs router that are not `GET` are `POST /`,
`PATCH /:id` and `DELETE /:id`, whose handlers are the ones that call
`Job.create`, `Job.update` and `Job.remove`. Each of them runs its handler only
after `authenticateJWT`, then `ensureLoggedIn`, then `ensureAdmin` have each
ended in `next()`; when one of them ends in `next(err)` the request ends there,
with no query issued and the store untouched. The two `GET` routes run their
handler whatever the middleware would do. And when `ensureLoggedIn` turns away
a request without identity and leaves `res.locals` alone, and `ensureAdmin`
turns away an identity that is not an admin, a request that `authenticateJWT`
leaves without identity, or with one that is not an admin, never reaches the
handler of a route that is not `GET`. -/
theorem jobsRoutes_mutating_routes_gated {σ : Type} (auth : Auth) (schemas : Schemas)
    (db : Db σ) (locals : Locals) (s : σ) (req : Request) :
    (jobsRoutes.filter (fun r => r.method != "GET")).map (fun r => (r.method, r.path, r.handler))
      = [("POST", "/", .postJob), ("PATCH", "/:id", .patchJob),
         ("DELETE", "/:id", .deleteJob)] ∧
    (jobsRoutes.filter (fun r => r.method == "GET")).map (fun r => (r.method, r.path, r.handler))
      = [("GET", "/", .getJobs), ("GET", "/:id", .getJob)] ∧
    (∀ route ∈ jobsRoutes, route.method ≠ "GET" →
      serve auth schemas db locals route s req =
        match auth.authenticateJWT req locals with
        | .error err => ⟨.next err, s, []⟩
        | .ok locals1 =>
          match auth.ensureLoggedIn req locals1 with
          | .error err => ⟨.next err, s, []⟩
          | .ok locals2 =>
            match auth.ensureAdmin req locals2 with
            | .error err => ⟨.next err, s, []⟩
            | .ok _ => runHandler schemas db route.handler s req) ∧
    (∀ route ∈ jobsRoutes, route.method = "GET" →
      serve auth schemas db locals route s req
        = runHandler schemas db route.handler s req) ∧
    ((∀ rq l, l.user = none → ∃ e, auth.ensureLoggedIn rq l = .error e) →
      (∀ rq l l1, auth.ensureLoggedIn rq l = .ok l1 → l1 = l) →
      (∀ rq l u, l.user = some u → u.isAdmin = false → ∃ e, auth.ensureAdmin rq l = .error e) →
      ∀ locals1, auth.authenticateJWT req locals = .ok locals1 →
        (locals1.user = none ∨ ∃ u, locals1.user = some u ∧ u.isAdmin = false) →
        ∀ route ∈ jobsRoutes, route.method ≠ "GET" →
          ∃ e, serve auth schemas db locals route s req = ⟨.next e, s, []⟩) := by
  refine ⟨by decide, by decide, ?_, ?_, ?_⟩
  · intro route hr hm
    exact serve_of_gated auth schemas db locals route s req
      (jobsRoutes_chain_of_not_get route hr hm)
  · intro route hr hm
    exact serve_of_open auth schemas db locals route s req
      (jobsRoutes_chain_of_get route hr hm)
  · intro hlogged hkeeps hadmin locals1 hjwt hwho route hr hm
    rw [serve_of_gated auth schemas db locals route s req
      (jobsRoutes_chain_of_not_get route hr hm), hjwt]
    simp only []
    cases hl : auth.ensureLoggedIn req locals1 with
    | error e => exact ⟨e, rfl⟩
    | ok locals2 =>
      have h2 : locals2 = locals1 := hkeeps req locals1 locals2 hl
      subst h2
      rcases hwho with hnone | ⟨u, hu, hna⟩
      · obtain ⟨e, he⟩ := hlogged req locals2 hnone
        rw [he] at hl
        cases hl
      · obtain ⟨e, he⟩ := hadmin req locals2 u hu hna
        simp only [he]
        exact ⟨e, rfl⟩

theorem jobsRoutes_mutating_routes_gated_witness :
    (∃ e, serve (specAuth twoTokens) anySchemas (pgStore noRows) ⟨none⟩
        ⟨"POST", "/", [.authenticateJWT, .ensureLoggedIn, .ensureAdmin], .postJob⟩ fixtureStore
        ⟨none, [], [], [("title", .str "new"), ("companyHandle", .str "c1")]⟩
      = ⟨.next e, fixtureStore, []⟩) ∧
    (∃ e, serve (specAuth twoTokens) anySchemas (pgStore noRows) ⟨none⟩
        ⟨"DELETE", "/:id", [.authenticateJWT, .ensureLoggedIn, .ensureAdmin], .deleteJob⟩
        fixtureStore ⟨some "Bearer user", [("id", "1")], [], []⟩
      = ⟨.next e, fixtureStore, []⟩) := by
  constructor
  · exact (jobsRoutes_mutating_routes_gated (specAuth twoTokens) anySchemas (pgStore noRows)
      ⟨none⟩ fixtureStore
      ⟨none, [], [], [("title", .str "new"), ("companyHandle", .str "c1")]⟩).2.2.2.2
      (by
        intro rq l hl
        exact ⟨⟨.UnauthorizedError, "Unauthorized"⟩, by simp [specAuth, hl]⟩)
      (by
        intro rq l l1 h
        cases hu : l.user with
        | none => simp [specAuth, hu] at h
        | some u =>
          simp only [specAuth, hu] at h
          cases h
          rfl)
      (by
        intro rq l u hu hna
        exact ⟨⟨.UnauthorizedError, "Unauthorized"⟩, by simp [specAuth, hu, hna]⟩)
      ⟨none⟩ rfl (Or.inl rfl) _ (by decide) (by decide)
  · exact (jobsRoutes_mutating_routes_gated (specAuth twoTokens) anySchemas (pgStore noRows)
      ⟨none⟩ fixtureStore ⟨some "Bearer user", [("id", "1")], [], []⟩).2.2.2.2
      (by
        intro rq l hl
        exact ⟨⟨.UnauthorizedError, "Unauthorized"⟩, by simp [specAuth, hl]⟩)
      (by
        intro rq l l1 h
        cases hu : l.user with
        | none => simp [specAuth, hu] at h
        | some u =>
          simp only [specAuth, hu] at h
          cases h
          rfl)
      (by
        intro rq l u hu hna
        exact ⟨⟨.UnauthorizedError, "Unauthorized"⟩, by simp [specAuth, hu, hna]⟩)
      ⟨some ⟨"test", false⟩⟩ (by decide) (Or.inr ⟨_, rfl, rfl⟩) _ (by decide) (by decide)

/-! `GET /companies`: which method is called -/

theorem getCompanies_9_10 {σ : Type} (ns : NumericStrings) (company : CompanyModel σ)
    (s : σ) :
    getCompanies ns company s [("min", "9"), ("max", "10")]
      = ⟨.next (BadRequestError "min must be below max"), s, []⟩ := by
  have hmin : queryOr [("min", "9"), ("max", "10")] "min" 0 = .str "9" := by decide
  have hmax : queryOr [("min", "9"), ("max", "10")] "max" 7000000 = .str "10" := by decide
  have hname : Object.has "name" ([("min", "9"), ("max", "10")] : QueryParams) = false := by
    decide
  have hb : (Object.has "min" ([("min", "9"), ("max", "10")] : QueryParams)
      || Object.has "max" ([("min", "9"), ("max", "10")] : QueryParams)) = true := by decide
  have hgt : jsGreater ns (.str "9") (.str "10") = true := by
    show textLess "10".data "9".data = true
    decide
  simp only [getCompanies, hname, hb, hmin, hmax, hgt, if_true, Bool.false_eq_true, if_false]

/-- C21. A `GET /companies` query either fails the handler's `min > max` check,
made when `min` or `max` is in the query, and then no method of `Company` is
called; or it passes, and then the handler calls exactly one method:
`searchByNameAndSize(name, min, max)` when `name` and a bound are in the query,
`searchByName(name)` when `name` is and no bound is, `searchBySize(min, max)`
when a bound is and `name` is not, `findAll()` when none of the three is; the
reply is what that method yields. -/
theorem getCompanies_calls_one_method {σ : Type} (ns : NumericStrings)
    (company : CompanyModel σ) (s : σ) (query : QueryParams) :
    getCompanies ns company s query =
      (if (Object.has "min" query || Object.has "max" query) &&
          jsGreater ns (queryOr query "min" 0) (queryOr query "max" 7000000) then
        ⟨.next (BadRequestError "min must be below max"), s, []⟩
      else
        replyCompanies company s
          (match Object.get? query "name", (Object.has "min" query || Object.has "max" query) with
          | some name, true =>
            .searchByNameAndSize (.str name) (queryOr query "min" 0) (queryOr query "max" 7000000)
          | some name, false => .searchByName (.str name)
          | none, true =>
            .searchBySize (queryOr query "min" 0) (queryOr query "max" 7000000)
          | none, false => .findAll)) ∧
    (getCompanies ns company s query).calls =
      (if (Object.has "min" query || Object.has "max" query) &&
          jsGreater ns (queryOr query "min" 0) (queryOr query "max" 7000000) then []
      else
        [match Object.get? query "name", (Object.has "min" query || Object.has "max" query) with
          | some name, true =>
            .searchByNameAndSize (.str name) (queryOr query "min" 0) (queryOr query "max" 7000000)
          | some name, false => .searchByName (.str name)
          | none, true =>
            .searchBySize (queryOr query "min" 0) (queryOr query "max" 7000000)
          | none, false => .findAll]) := by
  unfold getCompanies
  rw [Object.has_eq_isSome "name"]
  cases hn : Object.get? query "name" <;>
    cases hb : (Object.has "min" query || Object.has "max" query) <;>
    cases hgt : jsGreater ns (queryOr query "min" 0) (queryOr query "max" 7000000) <;>
    simp [QueryParams.prop, hn, hb, hgt, replyCompanies_calls]

/-- C23 fails on the code: for `min=9` and `max=10`, both decimal texts of
non-negative integers with 9 below 10, the handler compares the two texts,
finds `"9" > "10"` true, and ends in `BadRequestError` "min must be below max"
without calling a method of `Company`. -/
theorem getCompanies_min_9_max_10_rejected {σ : Type} (ns : NumericStrings)
    (company : CompanyModel σ) (s : σ) :
    pgIntegerText "9" = some 9 ∧ pgIntegerText "10" = some 10 ∧
    jsGreater ns (.str "9") (.str "10") = true ∧
    getCompanies ns company s [("min", "9"), ("max", "10")]
      = ⟨.next (BadRequestError "min must be below max"), s, []⟩ ∧
    (getCompanies ns company s [("min", "9"), ("max", "10")]).reply
      = .next ⟨.BadRequestError, "min must be below max"⟩ ∧
    (getCompanies ns company s [("min", "9"), ("max", "10")]).calls = [] := by
  refine ⟨by decide, by decide, ?_, getCompanies_9_10 ns company s, ?_, ?_⟩
  · show textLess "10".data "9".data = true
    decide
  · rw [getCompanies_9_10]
    rfl
  · rw [getCompanies_9_10]

/-! `Job.update`: the placeholders and the arguments -/

theorem Job.update_issued_of_ok {σ : Type} (db : Db σ) (s : σ) (id : JsValue) (data : Row)
    (r : PartialUpdate) (hok : sqlForPartialUpdate (Job.updateData data) [] = .ok r) :
    (Job.update db s id data).issued
      = [⟨.updateJobs r.setCols ("$" ++ toString (r.values.length + 1)), r.values ++ [id]⟩] := by
  simp only [Job.update, hok]
  rcases db s _ with ⟨res, s1⟩
  cases res with
  | error e => rfl
  | ok result =>
    cases result with
    | nil => rfl
    | cons job rest => simp

theorem sqlColumn_nil (colName : String) :
    sqlColumn [] colName = (objectPrototypeText colName).getD colName := by
  unfold sqlColumn
  cases objectPrototypeText colName <;> rfl

/-- C22. When `n >= 1` fields are left of `data` once `id` and `companyHandle`
are stripped, the one statement `Job.update` sends is the `UPDATE` whose `SET`
clause is `n` fragments joined by `", "`, the fragment at position `i` (from 0)
being `"<col>"=$(i+1)` for the field at that position, and whose `WHERE` clause
has the placeholder `$(n+1)`; the arguments sent with it are the `n` values of
the fields, in the same order, followed by `id`. So the argument at position
`i` is the value of the field whose fragment carries `$(i+1)`, and the argument
at position `n`, the one `$(n+1)` stands for, is `id`. The column `col` of a
field is its key, except for a key that names a property of `Object.prototype`,
where it is the text of that property. -/
theorem Job.update_placeholders_and_arguments {σ : Type} (db : Db σ) (s : σ) (id : JsValue)
    (data : Row) (n : Nat) (hn : (Job.updateData data).length = n) (hpos : 1 ≤ n) :
    ∃ frags values,
      (Job.update db s id data).issued
        = [⟨.updateJobs (", ".intercalate frags) ("$" ++ toString (n + 1)),
            values ++ [id]⟩] ∧
      frags.length = n ∧ values.length = n ∧
      (∀ i, i < n → ∃ k v, (Job.updateData data)[i]? = some (k, v) ∧
        frags[i]? = some ("\"" ++ (objectPrototypeText k).getD k ++ "\"=$"
          ++ toString (i + 1)) ∧
        (values ++ [id])[i]? = some v) ∧
      (values ++ [id])[n]? = some id := by
  have hne : Job.updateData data ≠ [] := by
    intro h
    rw [h] at hn
    simp at hn
    omega
  have hok := sqlForPartialUpdate_of_ne_nil (Job.updateData data) [] hne
  have hvals : (Object.values (Job.updateData data)).length = n := by
    simpa [Object.values] using hn
  refine ⟨sqlCols (Object.keys (Job.updateData data)) [],
    Object.values (Job.updateData data), ?_, ?_, hvals, ?_, ?_⟩
  · rw [Job.update_issued_of_ok db s id data _ hok, hvals]
  · simpa [sqlCols, Object.keys] using hn
  · intro i hi
    have hi1 : i < (Job.updateData data).length := by omega
    have hp : (Job.updateData data)[i]? = some (Job.updateData data)[i] :=
      List.getElem?_eq_getElem hi1
    refine ⟨(Job.updateData data)[i].1, (Job.updateData data)[i].2, hp, ?_, ?_⟩
    · simp [sqlCols, Object.keys, hp, sqlColumn_nil]
    · have hi2 : i < (Object.values (Job.updateData data)).length := by omega
      rw [List.getElem?_append_left hi2]
      simp [Object.values, hp]
  · rw [← hvals]
    simp

theorem Job.update_placeholders_and_arguments_witness :
    ∃ frags values,
      (Job.update noRows fixtureStore (.num 1)
          [("id", .num 9999), ("title", .str "updated"), ("salary", .num 500)]).issued
        = [⟨.updateJobs (", ".intercalate frags) ("$" ++ toString (2 + 1)),
            values ++ [.num 1]⟩] ∧
      frags.length = 2 ∧ values.length = 2 ∧
      (∀ i, i < 2 → ∃ k v,
        (Job.updateData [("id", .num 9999), ("title", .str "updated"),
          ("salary", .num 500)])[i]? = some (k, v) ∧
        frags[i]? = some ("\"" ++ (objectPrototypeText k).getD k ++ "\"=$"
          ++ toString (i + 1)) ∧
        (values ++ [.num 1])[i]? = some v) ∧
      (values ++ [JsValue.num 1])[2]? = some (.num 1) :=
  Job.update_placeholders_and_arguments noRows fixtureStore (.num 1)
    [("id", .num 9999), ("title", .str "updated"), ("salary", .num 500)] 2
    (by decide) (by decide)

/-- The statement of the test: updating title, salary and equity of job 1; and
the statement for a field named `constructor`, whose placeholders and arguments
line up all the same. -/
theorem Job.update_fixture :
    (Job.update noRows fixtureStore (.num 1)
        [("title", .str "updated"), ("salary", .num 500), ("equity", .str "0.9")]).issued
      = [⟨.updateJobs "\"title\"=$1, \"salary\"=$2, \"equity\"=$3" "$4",
          [.str "updated", .num 500, .str "0.9", .num 1]⟩] ∧
    (Job.update noRows fixtureStore (.num 1)
        [("constructor", .str "x"), ("title", .str "updated")]).issued
      = [⟨.updateJobs
            "\"function Object() \x7b [native code] \x7d\"=$1, \"title\"=$2" "$3",
          [.str "x", .str "updated", .num 1]⟩] := by
  decide

/-! `Job.findAll` -/

theorem Job.findAll_outcome {σ : Type} (db : Db σ) (s : σ) :
    (Job.findAll db s).outcome = (db s ⟨.selectJobs none, []⟩).1 := by
  simp only [Job.findAll]
  rcases db s ⟨.selectJobs none, []⟩ with ⟨res, s1⟩
  cases res <;> rfl

theorem Job.findAll_pgDb (other : Db Store) (st : Store) :
    (Job.findAll (pgDb other) st).outcome = .ok ((jobsJoinCompanies st).map jobView) := by
  rw [Job.findAll_outcome]
  rfl

theorem replyJobs_reply_of_ok {σ : Type} (r : Run σ (List Row)) (rows : List Row)
    (h : r.outcome = .ok rows) : (replyJobs r).reply = .json "jobs" rows := by
  unfold replyJobs
  rw [h]

theorem getJobs_no_filter (other : Db Store) (st : Store) (query : QueryParams)
    (ht : Object.get? query "title" = none) (hm : Object.get? query "minSalary" = none)
    (he : Object.get? query "hasEquity" ≠ some "true") :
    (getJobs (pgDb other) st query).reply = .json "jobs" ((jobsJoinCompanies st).map jobView) := by
  have hd : decide (Object.get? query "hasEquity" = some "true") = false := by simpa using he
  rw [getJobs_eq_dispatch, ht, hm, hd]
  exact replyJobs_reply_of_ok _ _ (Job.findAll_pgDb other st)

/-- C24. `Job.findAll` adds no error of its own: its outcome is the store's
answer to the job `SELECT` without `WHERE`, whatever it is. Over every store
content it returns all joined job rows as a list, which is the empty list when
the store has no jobs, and the handler of `GET /jobs`, for a query without
`title`, without `minSalary` and without `hasEquity=true`, replies with that
list, the empty one included; whereas over a store with no jobs
`Job.searchByEquity` fails with `NotFoundError`. -/
theorem Job.findAll_never_notFound {σ : Type} (db : Db σ) (s : σ) (other : Db Store)
    (st : Store) (query : QueryParams) :
    (Job.findAll db s).outcome = (db s ⟨.selectJobs none, []⟩).1 ∧
    (Job.findAll (pgDb other) st).outcome = .ok ((jobsJoinCompanies st).map jobView) ∧
    (Job.findAll (pgDb other) ⟨[], st.companies⟩).outcome = .ok [] ∧
    (Object.get? query "title" = none → Object.get? query "minSalary" = none →
      Object.get? query "hasEquity" ≠ some "true" →
      (getJobs (pgDb other) st query).reply
        = .json "jobs" ((jobsJoinCompanies st).map jobView) ∧
      (getJobs (pgDb other) ⟨[], st.companies⟩ query).reply = .json "jobs" []) ∧
    (Job.searchByEquity (pgDb other) ⟨[], st.companies⟩).outcome
      = .error (NotFoundError "No jobs found with equity > 0") := by
  refine ⟨Job.findAll_outcome db s, Job.findAll_pgDb other st, ?_, ?_, ?_⟩
  · rw [Job.findAll_pgDb]
    rfl
  · intro ht hm he
    refine ⟨getJobs_no_filter other st query ht hm he, ?_⟩
    rw [getJobs_no_filter other _ query ht hm he]
    rfl
  · rw [Job.searchByEquity_eq_searchRun,
      searchRun_outcome_rowsOrNotFound _ _ _ _ _ _
        (pgDb_selectJobs_where other ⟨[], st.companies⟩ .equityPos [] _ (by rfl)
          (fun j => Cond.holds_equityPos [] j))]
    rfl

theorem Job.findAll_never_notFound_witness :
    (getJobs (pgDb noRows) ⟨[], fixtureStore.companies⟩ [("hasEquity", "false")]).reply
      = .json "jobs" [] ∧
    (getJobs (pgDb noRows) fixtureStore []).reply
      = .json "jobs" ((jobsJoinCompanies fixtureStore).map jobView) :=
  ⟨((Job.findAll_never_notFound noRows fixtureStore noRows fixtureStore
      [("hasEquity", "false")]).2.2.2.1 (by decide) (by decide) (by decide)).2,
   ((Job.findAll_never_notFound noRows fixtureStore noRows fixtureStore
      []).2.2.2.1 (by decide) (by decide) (by decide)).1⟩

end JobApps
